import Mathlib

/-
  Verification development for aseprite_importer.cpp (dmoore764/ddslibs).

  Shallow embedding conventions:
  * C floats are modeled as exact rationals (the claims under scrutiny are
    about the formulas and branch structure of the color math, not about
    IEEE rounding).
  * C uint8/uint16/uint32 values are Nat; int16 offsets are Int.
  * The byte stream is a List Nat; every raw-pointer read of the C parser
    is an Option-returning read (reading past the end of the buffer is
    undefined behavior in the C source, modeled as parse failure).
  * malloc-fresh memory is uninitialized in C; uninitialized palette
    entries and cel slots are modeled as Option none.  Fields of
    documents the compositor consumes are universally quantified, which
    models indeterminate contents.
-/

set_option maxHeartbeats 1000000
set_option maxRecDepth 8000

/-- float -> uint8_t cast as used by the source (truncation of a
nonnegative float; negative inputs are UB in C and are clamped to 0
here). -/
def asepriteU8 (q : ℚ) : Nat := (Int.floor q).toNat

/-- aseprite_color: dual 8-bit / normalized-float representation
(union-based in C, explicit fields here). -/
structure aseprite_color where
  r8 : Nat
  g8 : Nat
  b8 : Nat
  a8 : Nat
  r : ℚ
  g : ℚ
  b : ℚ
  a : ℚ
deriving DecidableEq, Repr

/-- AsepriteColorFromR8G8B8A8. -/
def AsepriteColorFromR8G8B8A8 (r8 g8 b8 a8 : Nat) : aseprite_color :=
  { r8 := r8, g8 := g8, b8 := b8, a8 := a8
    r := (r8 : ℚ) / 255, g := (g8 : ℚ) / 255
    b := (b8 : ℚ) / 255, a := (a8 : ℚ) / 255 }

/-- AsepriteColorFromRGBA: float channels given, 8-bit forms derived by
the C cast (uint8_t)(x * 255). -/
def AsepriteColorFromRGBA (r g b a : ℚ) : aseprite_color :=
  { r8 := asepriteU8 (r * 255), g8 := asepriteU8 (g * 255)
    b8 := asepriteU8 (b * 255), a8 := asepriteU8 (a * 255)
    r := r, g := g, b := b, a := a }

/-- AsepriteColorFromRGBA8: build a color from a packed little-endian
32-bit RGBA value (byte 0 = red). -/
def AsepriteColorFromU32 (v : Nat) : aseprite_color :=
  AsepriteColorFromR8G8B8A8 (v % 256) (v / 256 % 256) (v / 65536 % 256) (v / 16777216 % 256)

/-- Pack the four 8-bit channels as the little-endian uint32 that
*((uint32_t *)Color.RGBA8) reads. -/
def asepritePackColor (c : aseprite_color) : Nat :=
  c.r8 % 256 + 256 * (c.g8 % 256) + 65536 * (c.b8 % 256) + 16777216 * (c.a8 % 256)

/-- AsepriteMin. -/
def AsepriteMin (a b : ℚ) : ℚ := if b < a then b else a

/-- AsepriteAbs. -/
def AsepriteAbs (a : ℚ) : ℚ := if a < 0 then -a else a

/-- The per-channel blended value computed by the switch statement of
AsepriteCombineColors (the same formula is applied to each of R, G, B;
s is the source channel, d the destination channel).  Modes 0 and 12-15
fall into the default branch (plain source). -/
def asepriteBlendChannel (blendMode : Nat) (s d : ℚ) : ℚ :=
  if blendMode = 1 then s * d
  else if blendMode = 2 then 1 - (1 - s) * (1 - d)
  else if blendMode = 3 then
    (if d < 1/2 then 2 * s * d else 1 - 2 * (1 - s) * (1 - d))
  else if blendMode = 4 then (if d < s then d else s)
  else if blendMode = 5 then (if s < d then d else s)
  else if blendMode = 6 then AsepriteMin (if s = 1 then 1 else d / (1 - s)) 1
  else if blendMode = 7 then (if s = 0 then 0 else 1 - AsepriteMin ((1 - d) / s) 1)
  else if blendMode = 8 then
    (if s < 1/2 then 2 * s * d else 1 - 2 * (1 - s) * (1 - d))
  else if blendMode = 9 then (1 - 2 * s) * d * d + 2 * d * s
  else if blendMode = 10 then AsepriteAbs (d - s)
  else if blendMode = 11 then 1/2 - 2 * (d - 1/2) * (s - 1/2)
  else s

/-- AsepriteCombineColors: source-over-destination alpha compositing
with a per-mode blended channel value. -/
def AsepriteCombineColors (src dest : aseprite_color) (blendMode : Nat) : aseprite_color :=
  let outAlpha := src.a + dest.a * (1 - src.a)
  if outAlpha = 0 then
    AsepriteColorFromRGBA 0 0 0 0
  else
    let outRed := asepriteBlendChannel blendMode src.r dest.r
    let outGreen := asepriteBlendChannel blendMode src.g dest.g
    let outBlue := asepriteBlendChannel blendMode src.b dest.b
    let oneOverOutAlpha := 1 / outAlpha
    AsepriteColorFromRGBA
      ((outRed * src.a + dest.r * dest.a * (1 - src.a)) * oneOverOutAlpha)
      ((outGreen * src.a + dest.g * dest.a * (1 - src.a)) * oneOverOutAlpha)
      ((outBlue * src.a + dest.b * dest.a * (1 - src.a)) * oneOverOutAlpha)
      outAlpha

/-- C2: for every pair of colors combined by AsepriteCombineColors, the
output alpha is srcA + destA*(1 - srcA); when that alpha is 0 the result
is the fully transparent color with every channel zero (no division
branch is taken); otherwise each float output channel is
(blendC*srcA + destC*destA*(1 - srcA)) / outAlpha where blendC is the
per-mode blended channel value. -/
theorem aseprite_c2_combine_alpha (src dest : aseprite_color) (blendMode : Nat) :
    (AsepriteCombineColors src dest blendMode).a = src.a + dest.a * (1 - src.a) ∧
    (src.a + dest.a * (1 - src.a) = 0 →
      AsepriteCombineColors src dest blendMode =
        { r8 := 0, g8 := 0, b8 := 0, a8 := 0, r := 0, g := 0, b := 0, a := 0 }) ∧
    (src.a + dest.a * (1 - src.a) ≠ 0 →
      (AsepriteCombineColors src dest blendMode).r =
        (asepriteBlendChannel blendMode src.r dest.r * src.a
          + dest.r * dest.a * (1 - src.a)) / (src.a + dest.a * (1 - src.a)) ∧
      (AsepriteCombineColors src dest blendMode).g =
        (asepriteBlendChannel blendMode src.g dest.g * src.a
          + dest.g * dest.a * (1 - src.a)) / (src.a + dest.a * (1 - src.a)) ∧
      (AsepriteCombineColors src dest blendMode).b =
        (asepriteBlendChannel blendMode src.b dest.b * src.a
          + dest.b * dest.a * (1 - src.a)) / (src.a + dest.a * (1 - src.a))) := by
  unfold AsepriteCombineColors
  by_cases h : src.a + dest.a * (1 - src.a) = 0
  · refine ⟨?_, fun _ => ?_, fun hne => absurd h hne⟩
    · simp [h, AsepriteColorFromRGBA, asepriteU8]
    · simp [h, AsepriteColorFromRGBA, asepriteU8]
  · refine ⟨?_, fun h0 => absurd h0 h, fun _ => ⟨?_, ?_, ?_⟩⟩ <;>
      simp [h, AsepriteColorFromRGBA, mul_one_div, div_eq_mul_inv]

/-- Witness for aseprite_c2_combine_alpha: both the zero-alpha branch
(two alpha-0 colors) and the nonzero branch (two opaque colors,
multiply mode) at concrete inputs. -/
theorem aseprite_c2_witness :
    (AsepriteCombineColors (AsepriteColorFromR8G8B8A8 10 20 30 0)
        (AsepriteColorFromR8G8B8A8 40 50 60 0) 1 =
      { r8 := 0, g8 := 0, b8 := 0, a8 := 0, r := 0, g := 0, b := 0, a := 0 }) ∧
    ((AsepriteCombineColors (AsepriteColorFromR8G8B8A8 255 0 0 255)
        (AsepriteColorFromR8G8B8A8 0 255 0 255) 1).r =
      (asepriteBlendChannel 1 (AsepriteColorFromR8G8B8A8 255 0 0 255).r
          (AsepriteColorFromR8G8B8A8 0 255 0 255).r
            * (AsepriteColorFromR8G8B8A8 255 0 0 255).a
        + (AsepriteColorFromR8G8B8A8 0 255 0 255).r
            * (AsepriteColorFromR8G8B8A8 0 255 0 255).a
            * (1 - (AsepriteColorFromR8G8B8A8 255 0 0 255).a))
        / ((AsepriteColorFromR8G8B8A8 255 0 0 255).a
          + (AsepriteColorFromR8G8B8A8 0 255 0 255).a
            * (1 - (AsepriteColorFromR8G8B8A8 255 0 0 255).a))) := by
  constructor
  · exact (aseprite_c2_combine_alpha (AsepriteColorFromR8G8B8A8 10 20 30 0)
      (AsepriteColorFromR8G8B8A8 40 50 60 0) 1).2.1 (by
        simp [AsepriteColorFromR8G8B8A8])
  · exact ((aseprite_c2_combine_alpha (AsepriteColorFromR8G8B8A8 255 0 0 255)
      (AsepriteColorFromR8G8B8A8 0 255 0 255) 1).2.2 (by
        simp [AsepriteColorFromR8G8B8A8])).1

/-
  Frame compositor (AsepriteGetEntireFrameRGBA).

  The destination texture is a list of packed 32-bit pixels; the pointer
  arithmetic of the source (byte pitch DestWidth*4, byte start
  (DestX < 0) ? 0 : DestX*4, Dest++ only on non-skipped columns) always
  lands on a 4-byte boundary, and the pixel index it denotes is carried
  here explicitly (row base plus one per processed column).  Cel pixel
  data is a byte list; the source pointer is carried as a signed byte
  index because the code performs no cel-rectangle clipping and the
  offset can go negative (an out-of-range read, UB in C, reads 0 here).
-/

structure aseprite_render_layer where
  xPos : Int
  yPos : Int
  dataWidth : Nat
  dataHeight : Nat
  data : List Nat
deriving DecidableEq, Repr

structure aseprite_render_layer_info where
  flags : Nat
  blendMode : Nat
  opacity : Nat
deriving DecidableEq, Repr

structure aseprite_render_frame where
  layers : List aseprite_render_layer
deriving DecidableEq, Repr

structure aseprite_render_file where
  widthInPixels : Nat
  heightInPixels : Nat
  colorDepth : Nat
  transparentPaletteEntry : Nat
  numFrames : Nat
  frames : List aseprite_render_frame
  paletteColors : List aseprite_color
  numLayers : Nat
  layerInfo : List aseprite_render_layer_info
deriving DecidableEq, Repr

inductive AsepriteRenderError where
  | frameIndexOutOfRange
deriving DecidableEq, Repr

def asepriteZeroColor : aseprite_color :=
  { r8 := 0, g8 := 0, b8 := 0, a8 := 0, r := 0, g := 0, b := 0, a := 0 }

/-- Read one byte of cel data at a signed index (out-of-range is an
uninitialized read in the C source; it yields 0 here). -/
def asepriteCelGet (celData : List Nat) (i : Int) : Nat :=
  if i < 0 then 0 else celData.getD i.toNat 0

/-- Read the destination pixel at a signed pixel index. -/
def asepriteDestGet (dest : List Nat) (i : Int) : Nat :=
  if i < 0 then 0 else dest.getD i.toNat 0

/-- Write the destination pixel at a signed pixel index. -/
def asepriteDestSet (dest : List Nat) (i : Int) (v : Nat) : List Nat :=
  if i < 0 then dest else dest.set i.toNat v

/-- Per-pixel source color resolution (the switch on ColorDepth inside
the X loop): indexed mode reads one palette byte, direct mode reads a
packed 32-bit value.  Returns the color and the advanced source index.
An out-of-range palette index or an unhandled depth reads uninitialized
memory in C; both yield the zero color here. -/
def asepriteResolveSource (paletteColors : List aseprite_color)
    (transparentPaletteEntry colorDepth : Nat) (celData : List Nat)
    (srcPos : Int) : aseprite_color × Int :=
  if colorDepth = 8 then
    let paletteIndex := asepriteCelGet celData srcPos
    (if paletteIndex = transparentPaletteEntry then asepriteZeroColor
     else paletteColors.getD paletteIndex asepriteZeroColor, srcPos + 1)
  else if colorDepth = 32 then
    (AsepriteColorFromU32
      (asepriteCelGet celData srcPos + 256 * asepriteCelGet celData (srcPos + 1)
        + 65536 * asepriteCelGet celData (srcPos + 2)
        + 16777216 * asepriteCelGet celData (srcPos + 3)), srcPos + 4)
  else (asepriteZeroColor, srcPos)

/-- Layer-opacity scaling of the source alpha (lines 811-819): only the
float alpha and the derived 8-bit alpha change. -/
def asepriteScaleOpacity (c : aseprite_color) (layerOpacity : ℚ) : aseprite_color :=
  if layerOpacity = 0 then asepriteZeroColor
  else if layerOpacity ≠ 1 then
    { c with a := c.a * layerOpacity, a8 := asepriteU8 (c.a * layerOpacity * 255) }
  else c

/-- The value stored to the destination pixel by lines 820-827: layer 0
or an all-zero destination word is overwritten by the source; otherwise
the source red byte being nonzero triggers blending and a zero red byte
leaves the destination value. -/
def asepritePixelCombine (layerIndex destVal : Nat) (src : aseprite_color)
    (blendMode : Nat) : Nat :=
  if layerIndex = 0 ∨ destVal = 0 then asepritePackColor src
  else if src.r8 ≠ 0 then
    asepritePackColor (AsepriteCombineColors src (AsepriteColorFromU32 destVal) blendMode)
  else destVal

/-- The X loop of the compositor for one row, recursing on the number of
remaining columns.  Skipped columns (X + DestX < 0) advance neither the
source nor the destination pointer; X + DestX >= DestWidth breaks. -/
def asepriteRenderRowX (paletteColors : List aseprite_color)
    (transparentPaletteEntry colorDepth layerIndex blendMode : Nat)
    (layerOpacity : ℚ) (celData : List Nat) (destWidth destX : Int) :
    Nat → Nat → Int → Int → List Nat → List Nat
  | 0, _, _, _, dest => dest
  | Nat.succ rem, x, srcPos, destPos, dest =>
    if (x : Int) + destX < 0 then
      asepriteRenderRowX paletteColors transparentPaletteEntry colorDepth layerIndex
        blendMode layerOpacity celData destWidth destX rem (x + 1) srcPos destPos dest
    else if destWidth ≤ (x : Int) + destX then dest
    else
      let rs := asepriteResolveSource paletteColors transparentPaletteEntry colorDepth
        celData srcPos
      let srcColor := asepriteScaleOpacity rs.1 layerOpacity
      let destVal := asepriteDestGet dest destPos
      let dest' :=
        if layerIndex = 0 ∨ destVal = 0 then
          asepriteDestSet dest destPos (asepritePackColor srcColor)
        else if srcColor.r8 ≠ 0 then
          asepriteDestSet dest destPos
            (asepritePackColor
              (AsepriteCombineColors srcColor (AsepriteColorFromU32 destVal) blendMode))
        else dest
      asepriteRenderRowX paletteColors transparentPaletteEntry colorDepth layerIndex
        blendMode layerOpacity celData destWidth destX rem (x + 1) rs.2 (destPos + 1) dest'

/-- The Y loop of the compositor: rows with Y + DestY < 0 are skipped,
Y + DestY >= DestHeight breaks; each processed row starts the
destination at its row base plus max(DestX, 0) and the source at
(StartY + Y)*DataPitch + StartX. -/
def asepriteRenderRowsY (paletteColors : List aseprite_color)
    (transparentPaletteEntry colorDepth layerIndex blendMode : Nat)
    (layerOpacity : ℚ) (celData : List Nat) (width : Nat)
    (destWidth destHeight destX destY dataPitch startX startY : Int) :
    Nat → Nat → List Nat → List Nat
  | 0, _, dest => dest
  | Nat.succ rem, y, dest =>
    if (y : Int) + destY < 0 then
      asepriteRenderRowsY paletteColors transparentPaletteEntry colorDepth layerIndex
        blendMode layerOpacity celData width destWidth destHeight destX destY dataPitch
        startX startY rem (y + 1) dest
    else if destHeight ≤ (y : Int) + destY then dest
    else
      let destPos := (destY + (y : Int)) * destWidth + (if destX < 0 then 0 else destX)
      let srcPos := (startY + (y : Int)) * dataPitch + startX
      asepriteRenderRowsY paletteColors transparentPaletteEntry colorDepth layerIndex
        blendMode layerOpacity celData width destWidth destHeight destX destY dataPitch
        startX startY rem (y + 1)
        (asepriteRenderRowX paletteColors transparentPaletteEntry colorDepth layerIndex
          blendMode layerOpacity celData destWidth destX width 0 srcPos destPos dest)

/-- The layer loop of the compositor: layers with zero opacity or a
clear visible flag are skipped; the others are composited bottom to
top. -/
def asepriteRenderLayers (file : aseprite_render_file) (frame : aseprite_render_frame)
    (destWidth destHeight destX destY : Int) :
    Nat → Nat → List Nat → List Nat
  | 0, _, dest => dest
  | Nat.succ rem, layerIndex, dest =>
    let info := file.layerInfo.getD layerIndex
      { flags := 0, blendMode := 0, opacity := 0 }
    if info.opacity = 0 ∨ info.flags &&& 1 = 0 then
      asepriteRenderLayers file frame destWidth destHeight destX destY rem
        (layerIndex + 1) dest
    else
      let layer := frame.layers.getD layerIndex
        { xPos := 0, yPos := 0, dataWidth := 0, dataHeight := 0, data := [] }
      let layerOpacity : ℚ := (info.opacity : ℚ) / 255
      let dataPitch : Int :=
        if file.colorDepth = 32 then (layer.dataWidth : Int) * 4 else (layer.dataWidth : Int)
      let startY : Int := 0 - layer.yPos
      let startX : Int :=
        if file.colorDepth = 32 then (0 - layer.xPos) * 4 else 0 - layer.xPos
      asepriteRenderLayers file frame destWidth destHeight destX destY rem (layerIndex + 1)
        (asepriteRenderRowsY file.paletteColors file.transparentPaletteEntry
          file.colorDepth layerIndex info.blendMode layerOpacity layer.data
          file.widthInPixels destWidth destHeight destX destY dataPitch startX startY
          file.heightInPixels 0 dest)

/-- AsepriteGetEntireFrameRGBA: the frame-index assertion, then the
bottom-to-top layer loop over a caller-supplied destination
sub-rectangle. -/
def AsepriteGetEntireFrameRGBA (file : aseprite_render_file) (frameNumber : Nat)
    (destTexture : List Nat) (destWidth destHeight destX destY : Int) :
    Except AsepriteRenderError (List Nat) :=
  if frameNumber < file.numFrames then
    let frame := file.frames.getD frameNumber { layers := [] }
    .ok (asepriteRenderLayers file frame destWidth destHeight destX destY
      file.numLayers 0 destTexture)
  else .error .frameIndexOutOfRange

/-- C9: requesting a frame index at or beyond the frame count fails with
FrameIndexOutOfRange (nothing is returned for the destination); an index
below the frame count never produces that error. -/
theorem aseprite_c9_frame_bounds (file : aseprite_render_file) (frameNumber : Nat)
    (destTexture : List Nat) (destWidth destHeight destX destY : Int) :
    (file.numFrames ≤ frameNumber →
      AsepriteGetEntireFrameRGBA file frameNumber destTexture destWidth destHeight
        destX destY = .error .frameIndexOutOfRange) ∧
    (frameNumber < file.numFrames →
      ∃ out, AsepriteGetEntireFrameRGBA file frameNumber destTexture destWidth destHeight
        destX destY = .ok out) := by
  unfold AsepriteGetEntireFrameRGBA
  constructor
  · intro h
    rw [if_neg (by omega)]
  · intro h
    rw [if_pos h]
    exact ⟨_, rfl⟩

/-- Witness for aseprite_c9_frame_bounds: a document with one frame,
requested indices 1 (out of range) and 0 (in range). -/
theorem aseprite_c9_witness :
    (AsepriteGetEntireFrameRGBA
      { widthInPixels := 1, heightInPixels := 1, colorDepth := 8,
        transparentPaletteEntry := 0, numFrames := 1, frames := [{ layers := [] }],
        paletteColors := [], numLayers := 0, layerInfo := [] } 1 [0] 1 1 0 0 =
      .error .frameIndexOutOfRange) ∧
    (∃ out, AsepriteGetEntireFrameRGBA
      { widthInPixels := 1, heightInPixels := 1, colorDepth := 8,
        transparentPaletteEntry := 0, numFrames := 1, frames := [{ layers := [] }],
        paletteColors := [], numLayers := 0, layerInfo := [] } 0 [0] 1 1 0 0 = .ok out) :=
  ⟨(aseprite_c9_frame_bounds _ 1 [0] 1 1 0 0).1 (by norm_num),
   (aseprite_c9_frame_bounds _ 0 [0] 1 1 0 0).2 (by norm_num)⟩

/-- C8: in indexed mode, a source byte equal to the transparent palette
index resolves to the fully transparent all-zero color no matter what
the palette holds at that index (the resolution does not depend on the
palette at all in that case); any other byte resolves by palette
lookup. -/
theorem aseprite_c8_transparent_index (paletteColors : List aseprite_color)
    (transparentPaletteEntry : Nat) (celData : List Nat) (srcPos : Int) :
    (asepriteCelGet celData srcPos = transparentPaletteEntry →
      (asepriteResolveSource paletteColors transparentPaletteEntry 8 celData srcPos).1 =
        { r8 := 0, g8 := 0, b8 := 0, a8 := 0, r := 0, g := 0, b := 0, a := 0 } ∧
      ∀ paletteColors' : List aseprite_color,
        (asepriteResolveSource paletteColors' transparentPaletteEntry 8 celData srcPos).1 =
        (asepriteResolveSource paletteColors transparentPaletteEntry 8 celData srcPos).1) ∧
    (asepriteCelGet celData srcPos ≠ transparentPaletteEntry →
      (asepriteResolveSource paletteColors transparentPaletteEntry 8 celData srcPos).1 =
        paletteColors.getD (asepriteCelGet celData srcPos) asepriteZeroColor) := by
  unfold asepriteResolveSource
  constructor
  · intro h
    constructor
    · simp [h, asepriteZeroColor]
    · intro pal'
      simp [h]
  · intro h
    simp [h]

/-- Witness for aseprite_c8_transparent_index: transparent index 3 with
a palette that stores opaque red at entry 3; the resolved source is the
zero color anyway, and a byte 1 resolves to the palette entry. -/
theorem aseprite_c8_witness :
    ((asepriteResolveSource [asepriteZeroColor, AsepriteColorFromR8G8B8A8 9 9 9 9,
        asepriteZeroColor, AsepriteColorFromR8G8B8A8 255 0 0 255] 3 8 [3, 1] 0).1 =
      { r8 := 0, g8 := 0, b8 := 0, a8 := 0, r := 0, g := 0, b := 0, a := 0 }) ∧
    ((asepriteResolveSource [asepriteZeroColor, AsepriteColorFromR8G8B8A8 9 9 9 9,
        asepriteZeroColor, AsepriteColorFromR8G8B8A8 255 0 0 255] 3 8 [3, 1] 1).1 =
      AsepriteColorFromR8G8B8A8 9 9 9 9) := by
  constructor
  · exact ((aseprite_c8_transparent_index _ 3 [3, 1] 0).1 (by
      simp [asepriteCelGet])).1
  · rw [(aseprite_c8_transparent_index [asepriteZeroColor,
      AsepriteColorFromR8G8B8A8 9 9 9 9, asepriteZeroColor,
      AsepriteColorFromR8G8B8A8 255 0 0 255] 3 [3, 1] 1).2 (by
        simp [asepriteCelGet])]
    simp [asepriteCelGet]

lemma aseprite_list_set_getD_self (l : List Nat) (n : Nat) :
    l.set n (l.getD n 0) = l := by
  induction l generalizing n with
  | nil => rfl
  | cons a t ih =>
    cases n with
    | zero => rfl
    | succ m => simpa [List.set, List.getD] using ih m

lemma asepriteDestSet_destGet_self (dest : List Nat) (i : Int) :
    asepriteDestSet dest i (asepriteDestGet dest i) = dest := by
  unfold asepriteDestSet asepriteDestGet
  by_cases h : i < 0
  · simp [h]
  · rw [if_neg h, if_neg h]
    exact aseprite_list_set_getD_self dest i.toNat

/-- C1 (amended): the per-pixel store rule of the compositor.  The
destination is overwritten by the source when the layer index is 0 or
the packed 32-bit destination word is exactly 0; otherwise the source is
blended over the destination precisely when the source red byte is
nonzero, and a zero red byte leaves the destination word untouched.
The final conjunct ties the rule to the compositor loop: one processed
column of the X loop stores exactly asepritePixelCombine of the resolved
opacity-scaled source. -/
theorem aseprite_c1_pixel_rule (layerIndex destVal : Nat) (src : aseprite_color)
    (blendMode : Nat) :
    (layerIndex = 0 ∨ destVal = 0 →
      asepritePixelCombine layerIndex destVal src blendMode = asepritePackColor src) ∧
    (layerIndex ≠ 0 → destVal ≠ 0 → src.r8 ≠ 0 →
      asepritePixelCombine layerIndex destVal src blendMode =
        asepritePackColor
          (AsepriteCombineColors src (AsepriteColorFromU32 destVal) blendMode)) ∧
    (layerIndex ≠ 0 → destVal ≠ 0 → src.r8 = 0 →
      asepritePixelCombine layerIndex destVal src blendMode = destVal) ∧
    (∀ (paletteColors : List aseprite_color)
      (transparentPaletteEntry colorDepth : Nat) (layerOpacity : ℚ)
      (celData : List Nat) (destWidth destX : Int) (rem x : Nat)
      (srcPos destPos : Int) (dest : List Nat),
      0 ≤ (x : Int) + destX → (x : Int) + destX < destWidth →
      asepriteRenderRowX paletteColors transparentPaletteEntry colorDepth layerIndex
          blendMode layerOpacity celData destWidth destX (rem + 1) x srcPos destPos dest =
        asepriteRenderRowX paletteColors transparentPaletteEntry colorDepth layerIndex
          blendMode layerOpacity celData destWidth destX rem (x + 1)
          (asepriteResolveSource paletteColors transparentPaletteEntry colorDepth
            celData srcPos).2 (destPos + 1)
          (asepriteDestSet dest destPos
            (asepritePixelCombine layerIndex (asepriteDestGet dest destPos)
              (asepriteScaleOpacity
                (asepriteResolveSource paletteColors transparentPaletteEntry colorDepth
                  celData srcPos).1 layerOpacity) blendMode))) := by
  refine ⟨?_, ?_, ?_, ?_⟩
  · intro h
    simp [asepritePixelCombine, h]
  · intro h1 h2 h3
    simp [asepritePixelCombine, h1, h2, h3]
  · intro h1 h2 h3
    simp [asepritePixelCombine, h1, h2, h3]
  · intro pal transparent depth opacity celData destWidth destX rem x srcPos destPos dest
      hge hlt
    rw [asepriteRenderRowX]
    rw [if_neg (by omega), if_neg (by omega)]
    dsimp only
    simp only [asepritePixelCombine]
    split_ifs with h1 h2
    · rfl
    · rfl
    · rw [asepriteDestSet_destGet_self]

/-- Witness for aseprite_c1_pixel_rule at concrete inputs: layer index
1, destination word 7, an opaque color with zero red byte; the store
rule leaves the destination, and a processed column of the X loop agrees
with asepritePixelCombine. -/
theorem aseprite_c1_witness :
    (asepritePixelCombine 1 7 (AsepriteColorFromR8G8B8A8 0 255 0 255) 0 = 7) ∧
    (asepriteRenderRowX [] 0 8 1 0 1 [0] 1 0 1 0 0 0 [7] =
      asepriteRenderRowX [] 0 8 1 0 1 [0] 1 0 0 1
        (asepriteResolveSource [] 0 8 [0] 0).2 1
        (asepriteDestSet [7] 0
          (asepritePixelCombine 1 (asepriteDestGet [7] 0)
            (asepriteScaleOpacity (asepriteResolveSource [] 0 8 [0] 0).1 1) 0))) := by
  constructor
  · exact (aseprite_c1_pixel_rule 1 7 (AsepriteColorFromR8G8B8A8 0 255 0 255) 0).2.2.1
      (by norm_num) (by norm_num) (by simp [AsepriteColorFromR8G8B8A8])
  · exact (aseprite_c1_pixel_rule 1 7 asepriteZeroColor 0).2.2.2 [] 0 8 1 [0] 1 0 0 0
      0 0 [7] (by norm_num) (by norm_num)

/-- Document for the C1 counterexample: 1x1 indexed canvas, two layers;
layer 0 has its visible flag clear, layer 1 is visible, fully opaque,
normal blend mode, and its cel pixel is palette entry 2 = opaque green
(red byte 0). -/
def asepriteC1File : aseprite_render_file :=
  { widthInPixels := 1, heightInPixels := 1, colorDepth := 8,
    transparentPaletteEntry := 0, numFrames := 1,
    frames := [{ layers := [
      { xPos := 0, yPos := 0, dataWidth := 1, dataHeight := 1, data := [1] },
      { xPos := 0, yPos := 0, dataWidth := 1, dataHeight := 1, data := [2] }] }],
    paletteColors := [asepriteZeroColor, AsepriteColorFromR8G8B8A8 255 0 0 255,
      AsepriteColorFromR8G8B8A8 0 255 0 255],
    numLayers := 2,
    layerInfo := [
      { flags := 0, blendMode := 0, opacity := 255 },
      { flags := 1, blendMode := 0, opacity := 255 }] }

/-- C1 counterexample.  In asepriteC1File, layer 1 is the bottommost
visible layer and the caller-supplied destination pixel 7 has alpha byte
0 (fully transparent), so the claim requires the opaque green source
(packed 4278255360, unchanged by full opacity) to overwrite the
destination; the compositor instead leaves the destination word 7: the
source red byte is 0 and the packed destination word is nonzero, so
nothing is stored. -/
theorem aseprite_c1_counterexample :
    AsepriteGetEntireFrameRGBA asepriteC1File 0 [7] 1 1 0 0 = .ok [7] ∧
    asepritePackColor (asepriteScaleOpacity
      (AsepriteColorFromR8G8B8A8 0 255 0 255) ((255 : ℚ) / 255)) = 4278255360 ∧
    (7 : Nat) ≠ 4278255360 ∧
    (AsepriteColorFromU32 7).a8 = 0 := by
  refine ⟨?_, ?_, by norm_num, by norm_num [AsepriteColorFromU32, AsepriteColorFromR8G8B8A8]⟩
  · norm_num [AsepriteGetEntireFrameRGBA, asepriteRenderLayers, asepriteRenderRowsY,
      asepriteRenderRowX, asepriteResolveSource, asepriteScaleOpacity, asepriteCelGet,
      asepriteDestGet, asepriteDestSet, asepritePackColor, asepriteU8,
      AsepriteColorFromR8G8B8A8, AsepriteColorFromU32, asepriteZeroColor,
      AsepriteCombineColors, asepriteBlendChannel, AsepriteColorFromRGBA,
      AsepriteMin, AsepriteAbs, asepriteC1File]
  · norm_num [asepriteScaleOpacity, asepritePackColor, AsepriteColorFromR8G8B8A8]

lemma asepriteDestSet_changes_only_own_index (dest : List Nat) (i : Int) (v : Nat)
    (j : Nat) (h : (asepriteDestSet dest i v)[j]? ≠ dest[j]?) :
    0 ≤ i ∧ j = i.toNat := by
  unfold asepriteDestSet at h
  by_cases hi : i < 0
  · rw [if_pos hi] at h
    exact absurd rfl h
  · rw [if_neg hi] at h
    refine ⟨by omega, ?_⟩
    by_cases hj : j = i.toNat
    · exact hj
    · rw [List.getElem?_set_ne (fun he => hj he.symm)] at h
      exact absurd rfl h

lemma asepriteRenderRowX_window (pal : List aseprite_color)
    (transparent depth lidx blend : Nat) (opacity : ℚ) (celData : List Nat)
    (destWidth destX : Int) :
    ∀ (rem x : Nat) (srcPos destPos : Int) (dest : List Nat) (B : Int) (j : Nat),
    destPos = B + (if (x : Int) + destX < 0 then 0 else (x : Int) + destX) →
    (asepriteRenderRowX pal transparent depth lidx blend opacity celData destWidth destX
      rem x srcPos destPos dest)[j]? ≠ dest[j]? →
    ∃ k : Nat, x ≤ k ∧ k < x + rem ∧ 0 ≤ (k : Int) + destX ∧
      (k : Int) + destX < destWidth ∧ (j : Int) = B + ((k : Int) + destX) := by
  intro rem
  induction rem with
  | zero =>
    intro x srcPos destPos dest B j _ h
    rw [asepriteRenderRowX] at h
    exact absurd rfl h
  | succ rem ih =>
    intro x srcPos destPos dest B j hinv h
    rw [asepriteRenderRowX] at h
    by_cases hskip : (x : Int) + destX < 0
    · rw [if_pos hskip] at h
      obtain ⟨k, hk1, hk2, hk3, hk4, hk5⟩ :=
        ih (x + 1) srcPos destPos dest B j (by
          subst hinv
          push_cast
          split_ifs <;> omega) h
      exact ⟨k, by omega, by omega, hk3, hk4, hk5⟩
    · rw [if_neg hskip] at h
      by_cases hbrk : destWidth ≤ (x : Int) + destX
      · rw [if_pos hbrk] at h
        exact absurd rfl h
      · rw [if_neg hbrk] at h
        dsimp only at h
        set dest' :=
          (if lidx = 0 ∨ asepriteDestGet dest destPos = 0 then
            asepriteDestSet dest destPos
              (asepritePackColor
                (asepriteScaleOpacity
                  (asepriteResolveSource pal transparent depth celData srcPos).1 opacity))
          else
            if (asepriteScaleOpacity
                (asepriteResolveSource pal transparent depth celData srcPos).1
                  opacity).r8 ≠ 0 then
              asepriteDestSet dest destPos
                (asepritePackColor
                  (AsepriteCombineColors
                    (asepriteScaleOpacity
                      (asepriteResolveSource pal transparent depth celData srcPos).1
                        opacity)
                    (AsepriteColorFromU32 (asepriteDestGet dest destPos)) blend))
            else dest) with hdest'
        by_cases hrec :
          (asepriteRenderRowX pal transparent depth lidx blend opacity celData destWidth
            destX rem (x + 1)
            (asepriteResolveSource pal transparent depth celData srcPos).2
            (destPos + 1) dest')[j]? ≠ dest'[j]?
        · obtain ⟨k, hk1, hk2, hk3, hk4, hk5⟩ :=
            ih (x + 1) (asepriteResolveSource pal transparent depth celData srcPos).2
              (destPos + 1) dest' B j (by
                subst hinv
                push_cast
                split_ifs <;> omega) hrec
          exact ⟨k, by omega, by omega, hk3, hk4, hk5⟩
        · push_neg at hrec
          rw [hrec] at h
          have hchange : dest'[j]? ≠ dest[j]? := h
          have hset : 0 ≤ destPos ∧ j = destPos.toNat := by
            rcases hdest' ▸ hchange with hc
            by_cases h1 : lidx = 0 ∨ asepriteDestGet dest destPos = 0
            · rw [if_pos h1] at hc
              exact asepriteDestSet_changes_only_own_index _ _ _ _ hc
            · rw [if_neg h1] at hc
              by_cases h2 : (asepriteScaleOpacity
                  (asepriteResolveSource pal transparent depth celData srcPos).1
                    opacity).r8 ≠ 0
              · rw [if_pos h2] at hc
                exact asepriteDestSet_changes_only_own_index _ _ _ _ hc
              · rw [if_neg h2] at hc
                exact absurd rfl hc
          refine ⟨x, le_refl x, by omega, by omega, by omega, ?_⟩
          have : (j : Int) = destPos := by omega
          rw [this, hinv, if_neg hskip]

lemma asepriteRenderRowsY_window (pal : List aseprite_color)
    (transparent depth lidx blend : Nat) (opacity : ℚ) (celData : List Nat)
    (width : Nat) (destWidth destHeight destX destY dataPitch startX startY : Int) :
    ∀ (rem y : Nat) (dest : List Nat) (j : Nat),
    (asepriteRenderRowsY pal transparent depth lidx blend opacity celData width
      destWidth destHeight destX destY dataPitch startX startY rem y dest)[j]? ≠
      dest[j]? →
    ∃ Y k : Nat, y ≤ Y ∧ Y < y + rem ∧ 0 ≤ (Y : Int) + destY ∧
      (Y : Int) + destY < destHeight ∧ k < width ∧ 0 ≤ (k : Int) + destX ∧
      (k : Int) + destX < destWidth ∧
      (j : Int) = (destY + (Y : Int)) * destWidth + ((k : Int) + destX) := by
  intro rem
  induction rem with
  | zero =>
    intro y dest j h
    rw [asepriteRenderRowsY] at h
    exact absurd rfl h
  | succ rem ih =>
    intro y dest j h
    rw [asepriteRenderRowsY] at h
    by_cases hskip : (y : Int) + destY < 0
    · rw [if_pos hskip] at h
      obtain ⟨Y, k, h1, h2, h3, h4, h5, h6, h7, h8⟩ := ih (y + 1) dest j h
      exact ⟨Y, k, by omega, by omega, h3, h4, h5, h6, h7, h8⟩
    · rw [if_neg hskip] at h
      by_cases hbrk : destHeight ≤ (y : Int) + destY
      · rw [if_pos hbrk] at h
        exact absurd rfl h
      · rw [if_neg hbrk] at h
        dsimp only at h
        set dest' := asepriteRenderRowX pal transparent depth lidx blend opacity celData
          destWidth destX width 0
          ((startY + (y : Int)) * dataPitch + startX)
          ((destY + (y : Int)) * destWidth + (if destX < 0 then 0 else destX)) dest
          with hdest'
        by_cases hrec :
          (asepriteRenderRowsY pal transparent depth lidx blend opacity celData width
            destWidth destHeight destX destY dataPitch startX startY rem (y + 1)
            dest')[j]? ≠ dest'[j]?
        · obtain ⟨Y, k, h1, h2, h3, h4, h5, h6, h7, h8⟩ := ih (y + 1) dest' j hrec
          exact ⟨Y, k, by omega, by omega, h3, h4, h5, h6, h7, h8⟩
        · push_neg at hrec
          rw [hrec] at h
          obtain ⟨k, hk1, hk2, hk3, hk4, hk5⟩ :=
            asepriteRenderRowX_window pal transparent depth lidx blend opacity celData
              destWidth destX width 0
              ((startY + (y : Int)) * dataPitch + startX)
              ((destY + (y : Int)) * destWidth + (if destX < 0 then 0 else destX)) dest
              ((destY + (y : Int)) * destWidth) j
              (by push_cast; split_ifs <;> omega) (hdest' ▸ h)
          exact ⟨y, k, le_refl y, by omega, by omega, by omega, by omega, hk3, hk4, hk5⟩

lemma asepriteRenderLayers_window (file : aseprite_render_file)
    (frame : aseprite_render_frame) (destWidth destHeight destX destY : Int) :
    ∀ (rem lidx : Nat) (dest : List Nat) (j : Nat),
    (asepriteRenderLayers file frame destWidth destHeight destX destY rem lidx
      dest)[j]? ≠ dest[j]? →
    ∃ Y k : Nat, Y < file.heightInPixels ∧ 0 ≤ (Y : Int) + destY ∧
      (Y : Int) + destY < destHeight ∧ k < file.widthInPixels ∧
      0 ≤ (k : Int) + destX ∧ (k : Int) + destX < destWidth ∧
      (j : Int) = (destY + (Y : Int)) * destWidth + ((k : Int) + destX) := by
  intro rem
  induction rem with
  | zero =>
    intro lidx dest j h
    rw [asepriteRenderLayers] at h
    exact absurd rfl h
  | succ rem ih =>
    intro lidx dest j h
    rw [asepriteRenderLayers] at h
    by_cases hskip : (file.layerInfo.getD lidx
        { flags := 0, blendMode := 0, opacity := 0 }).opacity = 0 ∨
      (file.layerInfo.getD lidx { flags := 0, blendMode := 0, opacity := 0 }).flags &&& 1 = 0
    · rw [if_pos hskip] at h
      exact ih (lidx + 1) dest j h
    · rw [if_neg hskip] at h
      dsimp only at h
      set dest' := asepriteRenderRowsY file.paletteColors file.transparentPaletteEntry
        file.colorDepth lidx
        (file.layerInfo.getD lidx { flags := 0, blendMode := 0, opacity := 0 }).blendMode
        ((((file.layerInfo.getD lidx
          { flags := 0, blendMode := 0, opacity := 0 }).opacity : ℚ)) / 255)
        (frame.layers.getD lidx
          { xPos := 0, yPos := 0, dataWidth := 0, dataHeight := 0, data := [] }).data
        file.widthInPixels destWidth destHeight destX destY
        (if file.colorDepth = 32 then
          ((frame.layers.getD lidx
            { xPos := 0, yPos := 0, dataWidth := 0, dataHeight := 0,
              data := [] }).dataWidth : Int) * 4
        else
          ((frame.layers.getD lidx
            { xPos := 0, yPos := 0, dataWidth := 0, dataHeight := 0,
              data := [] }).dataWidth : Int))
        (if file.colorDepth = 32 then
          (0 - (frame.layers.getD lidx
            { xPos := 0, yPos := 0, dataWidth := 0, dataHeight := 0,
              data := [] }).xPos) * 4
        else
          0 - (frame.layers.getD lidx
            { xPos := 0, yPos := 0, dataWidth := 0, dataHeight := 0,
              data := [] }).xPos)
        (0 - (frame.layers.getD lidx
          { xPos := 0, yPos := 0, dataWidth := 0, dataHeight := 0, data := [] }).yPos)
        file.heightInPixels 0 dest with hdest'
      by_cases hrec :
        (asepriteRenderLayers file frame destWidth destHeight destX destY rem (lidx + 1)
          dest')[j]? ≠ dest'[j]?
      · exact ih (lidx + 1) dest' j hrec
      · push_neg at hrec
        rw [hrec] at h
        obtain ⟨Y, k, h1, h2, h3, h4, h5, h6, h7, h8⟩ :=
          asepriteRenderRowsY_window _ _ _ _ _ _ _ _ _ _ _ _ _ _ _
            file.heightInPixels 0 dest j (hdest' ▸ h)
        exact ⟨Y, k, by omega, h3, h4, h5, h6, h7, h8⟩

/-- C7 (amended): for every document and caller-supplied destination
rectangle, the compositor writes only inside the intersection of the
translated canvas rectangle with the destination rectangle: any
destination index whose value differs after rendering corresponds to a
canvas pixel (X, Y) with X < canvas width, Y < canvas height,
0 <= Y + destY < destHeight and 0 <= X + destX < destWidth.  (The code
performs no clipping against the cel rectangle: see the separate
counterexample, where a pixel outside the cel rectangle is written from
out-of-range cel data.) -/
theorem aseprite_c7_write_window (file : aseprite_render_file) (frameNumber : Nat)
    (destTexture : List Nat) (destWidth destHeight destX destY : Int)
    (out : List Nat) (j : Nat)
    (hok : AsepriteGetEntireFrameRGBA file frameNumber destTexture destWidth destHeight
      destX destY = .ok out)
    (hch : out[j]? ≠ destTexture[j]?) :
    ∃ Y X : Nat, Y < file.heightInPixels ∧ X < file.widthInPixels ∧
      0 ≤ (Y : Int) + destY ∧ (Y : Int) + destY < destHeight ∧
      0 ≤ (X : Int) + destX ∧ (X : Int) + destX < destWidth ∧
      (j : Int) = (destY + (Y : Int)) * destWidth + ((X : Int) + destX) := by
  unfold AsepriteGetEntireFrameRGBA at hok
  by_cases hf : frameNumber < file.numFrames
  · rw [if_pos hf] at hok
    obtain ⟨Y, k, h1, h2, h3, h4, h5, h6, h7⟩ :=
      asepriteRenderLayers_window file (file.frames.getD frameNumber { layers := [] })
        destWidth destHeight destX destY file.numLayers 0 destTexture j
        (by rw [Except.ok.injEq] at hok; rw [← hok] at hch; exact hch)
    exact ⟨Y, k, h1, h4, h2, h3, h5, h6, h7⟩
  · rw [if_neg hf] at hok
    exact absurd hok (by simp)

/-- Document for the C7 counterexample: 2x1 indexed canvas, one visible
opaque layer whose cel is only 1x1 at offset (0, 0) (the cel rectangle
covers column 0 only); palette entry 5 is opaque red and the single cel
byte is 5. -/
def asepriteC7File : aseprite_render_file :=
  { widthInPixels := 2, heightInPixels := 1, colorDepth := 8,
    transparentPaletteEntry := 0, numFrames := 1,
    frames := [{ layers := [
      { xPos := 0, yPos := 0, dataWidth := 1, dataHeight := 1, data := [5] }] }],
    paletteColors := [asepriteZeroColor, asepriteZeroColor, asepriteZeroColor,
      asepriteZeroColor, asepriteZeroColor, AsepriteColorFromR8G8B8A8 255 0 0 255],
    numLayers := 1,
    layerInfo := [{ flags := 1, blendMode := 0, opacity := 255 }] }

/-- C7 counterexample.  The cel of asepriteC7File covers destination
column 0 only (xPos 0, dataWidth 1), yet the compositor also writes
destination column 1 - a pixel outside the cel rectangle - changing the
caller-supplied word 7 to 0 there, from a cel-data read past the end of
the 1-byte payload; so it is not the case that only the intersection of
the cel rectangle with the destination rectangle is written. -/
theorem aseprite_c7_counterexample :
    AsepriteGetEntireFrameRGBA asepriteC7File 0 [7, 7] 2 1 0 0 =
      .ok [4278190335, 0] ∧
    ((asepriteC7File.frames.getD 0 { layers := [] }).layers.getD 0
      { xPos := 0, yPos := 0, dataWidth := 0, dataHeight := 0, data := [] }).xPos = 0 ∧
    ((asepriteC7File.frames.getD 0 { layers := [] }).layers.getD 0
      { xPos := 0, yPos := 0, dataWidth := 0, dataHeight := 0, data := [] }).dataWidth = 1 ∧
    ([4278190335, 0] : List Nat)[1]? ≠ ([7, 7] : List Nat)[1]? := by
  refine ⟨?_, rfl, rfl, by decide⟩
  norm_num [AsepriteGetEntireFrameRGBA, asepriteRenderLayers, asepriteRenderRowsY,
    asepriteRenderRowX, asepriteResolveSource, asepriteScaleOpacity, asepriteCelGet,
    asepriteDestGet, asepriteDestSet, asepritePackColor, asepriteU8,
    AsepriteColorFromR8G8B8A8, AsepriteColorFromU32, asepriteZeroColor,
    AsepriteCombineColors, asepriteBlendChannel, AsepriteColorFromRGBA,
    AsepriteMin, AsepriteAbs, asepriteC7File]

/-- Witness for aseprite_c7_write_window: the changed destination index
1 of the asepriteC7File rendering lies inside the canvas/destination
window. -/
theorem aseprite_c7_witness :
    ∃ Y X : Nat, Y < asepriteC7File.heightInPixels ∧ X < asepriteC7File.widthInPixels ∧
      0 ≤ (Y : Int) + 0 ∧ (Y : Int) + 0 < 1 ∧
      0 ≤ (X : Int) + 0 ∧ (X : Int) + 0 < 2 ∧
      ((1 : Nat) : Int) = (0 + (Y : Int)) * 2 + ((X : Int) + 0) := by
  refine aseprite_c7_write_window asepriteC7File 0 [7, 7] 2 1 0 0 [4278190335, 0] 1 ?_ ?_
  · norm_num [AsepriteGetEntireFrameRGBA, asepriteRenderLayers, asepriteRenderRowsY,
      asepriteRenderRowX, asepriteResolveSource, asepriteScaleOpacity, asepriteCelGet,
      asepriteDestGet, asepriteDestSet, asepritePackColor, asepriteU8,
      AsepriteColorFromR8G8B8A8, AsepriteColorFromU32, asepriteZeroColor,
      AsepriteCombineColors, asepriteBlendChannel, AsepriteColorFromRGBA,
      AsepriteMin, AsepriteAbs, asepriteC7File]
  · decide

/-
  Single-pass parser (AsepriteParseFile and its chunk/palette/layer/cel
  decoders).  The C code walks raw memory with no bounds checks; each
  read here is an Option-returning little-endian read over the byte
  list, so a truncated buffer surfaces as parse failure instead of
  undefined behavior.  Freshly malloc-ed tables are uninitialized: their
  entries are Option none until written.
-/

def asepriteReadU8 (d : List Nat) (p : Nat) : Option Nat := d[p]?

def asepriteReadU16 (d : List Nat) (p : Nat) : Option Nat := do
  let b0 ← d[p]?
  let b1 ← d[p + 1]?
  pure (b0 + 256 * b1)

def asepriteReadU32 (d : List Nat) (p : Nat) : Option Nat := do
  let b0 ← d[p]?
  let b1 ← d[p + 1]?
  let b2 ← d[p + 2]?
  let b3 ← d[p + 3]?
  pure (b0 + 256 * b1 + 65536 * b2 + 16777216 * b3)

/-- Little-endian int16 read (two's complement). -/
def asepriteReadI16 (d : List Nat) (p : Nat) : Option Int :=
  (asepriteReadU16 d p).map (fun n => if n < 32768 then (n : Int) else (n : Int) - 65536)

/-- aseprite_palette: the declared size (NumColors, set only by the
modern decoder) and the color table; a none entry is malloc-fresh,
never-written memory. -/
structure aseprite_palette where
  numColors : Nat
  colors : List (Option aseprite_color)
deriving DecidableEq, Repr

/-- The entry loop of AsepriteParsePalette: one iteration per index of
[FirstColorIndexToChange, LastColorIndexToChange]; each iteration reads
a 6-byte color record (flags u16 + RGBA), skips a length-prefixed name
string when the flag word equals 1, and stores the color at the current
index. -/
def asepriteParsePaletteLoop (d : List Nat) :
    Nat → Nat → Nat → List (Option aseprite_color) →
    Option (List (Option aseprite_color))
  | 0, _, _, tbl => some tbl
  | Nat.succ count, idx, pos, tbl => do
    let flags ← asepriteReadU16 d pos
    let r ← asepriteReadU8 d (pos + 2)
    let g ← asepriteReadU8 d (pos + 3)
    let b ← asepriteReadU8 d (pos + 4)
    let a ← asepriteReadU8 d (pos + 5)
    let pos2 ←
      if flags = 1 then do
        let len ← asepriteReadU16 d (pos + 6)
        pure (pos + 8 + len)
      else pure (pos + 6)
    asepriteParsePaletteLoop d count (idx + 1) pos2
      (tbl.set idx (some (AsepriteColorFromR8G8B8A8 r g b a)))

/-- AsepriteParsePalette (modern, chunk type 0x2019): reads the
20-byte palette header (new size, first index, last index, 8 spacer
bytes), mallocs a fresh table of the new size, and runs the entry
loop over [first, last]. -/
def AsepriteParsePalette (d : List Nat) (p : Nat) : Option aseprite_palette := do
  let newSize ← asepriteReadU32 d p
  let first ← asepriteReadU32 d (p + 4)
  let last ← asepriteReadU32 d (p + 8)
  let tbl ← asepriteParsePaletteLoop d (last + 1 - first) first (p + 20)
    (List.replicate newSize none)
  pure { numColors := newSize, colors := tbl }

/-- The inner color loop of AsepriteParseOldPalette: reads three bytes
per color and stores it with implicit full alpha, at consecutive
indices. -/
def asepriteParseOldColors (d : List Nat) :
    Nat → Nat → Nat → List (Option aseprite_color) →
    Option (List (Option aseprite_color) × Nat)
  | 0, _, pos, tbl => some (tbl, pos)
  | Nat.succ n, idx, pos, tbl => do
    let r ← asepriteReadU8 d pos
    let g ← asepriteReadU8 d (pos + 1)
    let b ← asepriteReadU8 d (pos + 2)
    asepriteParseOldColors d n (idx + 1) (pos + 3)
      (tbl.set idx (some (AsepriteColorFromR8G8B8A8 r g b 255)))

/-- The packet loop of AsepriteParseOldPalette: each packet is a start
index byte and a count byte where 0 means 256, followed by the colors. -/
def asepriteParseOldPackets (d : List Nat) :
    Nat → Nat → List (Option aseprite_color) →
    Option (List (Option aseprite_color))
  | 0, _, tbl => some tbl
  | Nat.succ n, pos, tbl => do
    let start ← asepriteReadU8 d pos
    let num ← asepriteReadU8 d (pos + 1)
    let num16 := if num = 0 then 256 else num
    let r ← asepriteParseOldColors d num16 start (pos + 2) tbl
    asepriteParseOldPackets d n r.2 r.1

/-- AsepriteParseOldPalette (legacy, chunk type 0x0004): reads a packet
count, mallocs a fresh 256-entry color table, and runs the packet
loop.  NumColors is left untouched by the C code, so only the table is
returned. -/
def AsepriteParseOldPalette (d : List Nat) (p : Nat) :
    Option (List (Option aseprite_color)) := do
  let packets ← asepriteReadU16 d p
  asepriteParseOldPackets d packets (p + 2) (List.replicate 256 none)

/-- aseprite_layer_info: one layer descriptor (the default width/height
fields are read but ignored by the C code). -/
structure aseprite_layer_info where
  flags : Nat
  layerType : Nat
  layerChild : Nat
  blendMode : Nat
  opacity : Nat
  name : List Nat
deriving DecidableEq, Repr

/-- AsepriteParseLayer payload decoding: the 16-byte layer header
followed by the length-prefixed name string. -/
def AsepriteParseLayer (d : List Nat) (p : Nat) : Option aseprite_layer_info := do
  let flags ← asepriteReadU16 d p
  let layerType ← asepriteReadU16 d (p + 2)
  let layerChild ← asepriteReadU16 d (p + 4)
  let _defaultWidth ← asepriteReadU16 d (p + 6)
  let _defaultHeight ← asepriteReadU16 d (p + 8)
  let blendMode ← asepriteReadU16 d (p + 10)
  let opacity ← asepriteReadU8 d (p + 12)
  let nameLength ← asepriteReadU16 d (p + 16)
  pure { flags := flags, layerType := layerType, layerChild := layerChild,
         blendMode := blendMode, opacity := opacity,
         name := (d.drop (p + 18)).take nameLength }

/-- The decoded cel header (16 packed bytes in the stream). -/
structure aseprite_cel_header where
  layerIndex : Nat
  xPos : Int
  yPos : Int
  opacity : Nat
  celType : Nat
deriving DecidableEq, Repr

/-- One slot of a frame's cel array.  The C array is malloc-fresh, so
every field is none until AsepriteParseCel writes it; a linked cel
writes only the header, and a compressed cel stores the inflate result
(whose inner none is the NULL pointer tinfl returns on failure). -/
structure aseprite_cel_slot where
  header : Option aseprite_cel_header
  dataWidth : Option Nat
  dataHeight : Option Nat
  data : Option (Option (List Nat))
deriving DecidableEq, Repr

def asepriteEmptySlot : aseprite_cel_slot :=
  { header := none, dataWidth := none, dataHeight := none, data := none }

/-- aseprite_frame as the parser sees it: the recorded layer count and
the cel array. -/
structure aseprite_parse_frame where
  numLayers : Nat
  layers : List aseprite_cel_slot
deriving DecidableEq, Repr

/-- AsepriteParseCel: reads the cel header, stores it into the slot at
the declared layer index, then dispatches on the cel type: raw (0)
copies the trailing chunkLength - 16 - 4 bytes, linked (1) stores
nothing further, compressed (2) hands the trailing bytes to the
external inflate collaborator. -/
def AsepriteParseCel (inflate : List Nat → Option (List Nat))
    (frame : aseprite_parse_frame) (d : List Nat) (p : Nat) (chunkLength : Nat) :
    Option aseprite_parse_frame := do
  let layerIndex ← asepriteReadU16 d p
  let xPos ← asepriteReadI16 d (p + 2)
  let yPos ← asepriteReadI16 d (p + 4)
  let opacity ← asepriteReadU8 d (p + 6)
  let celType ← asepriteReadU16 d (p + 7)
  let slot0 := frame.layers.getD layerIndex asepriteEmptySlot
  let hdr : aseprite_cel_header :=
    { layerIndex := layerIndex, xPos := xPos, yPos := yPos,
      opacity := opacity, celType := celType }
  let slot1 := { slot0 with header := some hdr }
  let slot2 ←
    if celType = 0 then do
      let w ← asepriteReadU16 d (p + 16)
      let h ← asepriteReadU16 d (p + 18)
      let dataSize := chunkLength - 16 - 4
      let slot : aseprite_cel_slot :=
        { slot1 with
          dataWidth := some w, dataHeight := some h,
          data := some (some ((d.drop (p + 20)).take dataSize)) }
      pure slot
    else if celType = 1 then
      pure slot1
    else if celType = 2 then do
      let w ← asepriteReadU16 d (p + 16)
      let h ← asepriteReadU16 d (p + 18)
      let dataSize := chunkLength - 16 - 4
      let slot : aseprite_cel_slot :=
        { slot1 with
          dataWidth := some w, dataHeight := some h,
          data := some (inflate ((d.drop (p + 20)).take dataSize)) }
      pure slot
    else
      pure slot1
  pure { frame with layers := frame.layers.set layerIndex slot2 }

/-- The document fields the chunk dispatcher mutates. -/
structure aseprite_parse_file where
  palette : aseprite_palette
  numLayers : Nat
  layerInfo : List aseprite_layer_info
deriving DecidableEq, Repr

/-- The cursor offset, layer-storage capacity, and modern-palette flag
the C parsing routines pass around. -/
structure aseprite_parse_pos where
  at_ : Nat
  availableLayers : Nat
  usesNewPalette : Bool
deriving DecidableEq, Repr

/-- The full state a chunk step operates on: the input buffer, the
document under construction, the current frame, and the parser
position. -/
structure aseprite_chunk_state where
  data : List Nat
  file : aseprite_parse_file
  frame : aseprite_parse_frame
  parser : aseprite_parse_pos
deriving DecidableEq, Repr

/-- AsepriteParseChunk: reads the 6-byte chunk header, unconditionally
repositions the cursor to chunk start + declared chunk size, then
dispatches on the type code exactly as the C switch does: 0x0004 runs
the legacy palette decoder unless a modern palette chunk has been seen,
0x0011 and the skipped types 0x2016/0x2017/0x2018/0x2020 only log,
0x2004 appends a layer (doubling the capacity when full), 0x2005
re-allocates the frame's cel array when the recorded layer count
differs from the global one and then decodes the cel, 0x2019 sets the
modern-palette flag and decodes the modern palette; unknown types do
nothing. -/
def AsepriteParseChunk (inflate : List Nat → Option (List Nat))
    (s : aseprite_chunk_state) : Option aseprite_chunk_state := do
  let chunkSize ← asepriteReadU32 s.data s.parser.at_
  let chunkType ← asepriteReadU16 s.data (s.parser.at_ + 4)
  let chunkData := s.parser.at_ + 6
  let s1 : aseprite_chunk_state :=
    { s with parser := { s.parser with at_ := s.parser.at_ + chunkSize } }
  if chunkType = 0x0004 then
    if s1.parser.usesNewPalette then pure s1
    else do
      let colors ← AsepriteParseOldPalette s1.data chunkData
      let pal2 : aseprite_palette := { s1.file.palette with colors := colors }
      pure { s1 with file := { s1.file with palette := pal2 } }
  else if chunkType = 0x0011 then pure s1
  else if chunkType = 0x2004 then do
    let avail := if s1.file.numLayers = s1.parser.availableLayers then
      2 * s1.parser.availableLayers else s1.parser.availableLayers
    let newLayer ← AsepriteParseLayer s1.data chunkData
    let file2 : aseprite_parse_file :=
      { s1.file with
        numLayers := s1.file.numLayers + 1,
        layerInfo := s1.file.layerInfo ++ [newLayer] }
    pure { s1 with
      file := file2,
      parser := { s1.parser with availableLayers := avail } }
  else if chunkType = 0x2005 then do
    let frame1 := if s1.frame.numLayers ≠ s1.file.numLayers then
        { numLayers := s1.file.numLayers,
          layers := List.replicate s1.file.numLayers asepriteEmptySlot }
      else s1.frame
    let frame2 ← AsepriteParseCel inflate frame1 s1.data chunkData (chunkSize - 6)
    pure { s1 with frame := frame2 }
  else if chunkType = 0x2016 then pure s1
  else if chunkType = 0x2017 then pure s1
  else if chunkType = 0x2018 then pure s1
  else if chunkType = 0x2019 then do
    let pal ← AsepriteParsePalette s1.data chunkData
    pure { s1 with
      file := { s1.file with palette := pal },
      parser := { s1.parser with usesNewPalette := true } }
  else if chunkType = 0x2020 then pure s1
  else pure s1

/-- n successive chunk-dispatch steps. -/
def AsepriteParseChunkN (inflate : List Nat → Option (List Nat)) :
    Nat → aseprite_chunk_state → Option aseprite_chunk_state
  | 0, s => some s
  | Nat.succ n, s => (AsepriteParseChunk inflate s).bind (AsepriteParseChunkN inflate n)

/-- The chunk type code the dispatcher would read at the current cursor
position. -/
def asepriteChunkTypeAt (s : aseprite_chunk_state) : Option Nat :=
  asepriteReadU16 s.data (s.parser.at_ + 4)

lemma asepriteParsePaletteLoop_succ_inv (d : List Nat) (count idx pos : Nat)
    (tbl tbl' : List (Option aseprite_color))
    (h : asepriteParsePaletteLoop d (count + 1) idx pos tbl = some tbl') :
    ∃ flags r g b a pos2,
      asepriteReadU16 d pos = some flags ∧
      asepriteReadU8 d (pos + 2) = some r ∧
      asepriteReadU8 d (pos + 3) = some g ∧
      asepriteReadU8 d (pos + 4) = some b ∧
      asepriteReadU8 d (pos + 5) = some a ∧
      (if flags = 1 then (asepriteReadU16 d (pos + 6)).bind
          (fun len => some (pos + 8 + len))
        else some (pos + 6)) = some pos2 ∧
      asepriteParsePaletteLoop d count (idx + 1) pos2
        (tbl.set idx (some (AsepriteColorFromR8G8B8A8 r g b a))) = some tbl' := by
  rw [asepriteParsePaletteLoop] at h
  simp only [bind, Option.bind_eq_some, Option.pure_def, Option.some.injEq] at h
  obtain ⟨flags, hf, r, hr, g, hg, b, hb, a, ha, h⟩ := h
  refine ⟨flags, r, g, b, a, ?_⟩
  by_cases hfl : flags = 1
  · rw [if_pos hfl] at h
    simp only [Option.bind_eq_some, Option.some.injEq] at h
    obtain ⟨len, hlen, pos2, hpos2, h⟩ := h
    refine ⟨pos + 8 + len, hf, hr, hg, hb, ha, ?_, ?_⟩
    · rw [if_pos hfl, hlen]
      simp
    · rw [← hpos2] at h
      exact h
  · rw [if_neg hfl] at h
    refine ⟨pos + 6, hf, hr, hg, hb, ha, by rw [if_neg hfl], h⟩

lemma asepriteParsePaletteLoop_length (d : List Nat) :
    ∀ (count idx pos : Nat) (tbl tbl' : List (Option aseprite_color)),
    asepriteParsePaletteLoop d count idx pos tbl = some tbl' →
    tbl'.length = tbl.length := by
  intro count
  induction count with
  | zero =>
    intro idx pos tbl tbl' h
    rw [asepriteParsePaletteLoop] at h
    rw [Option.some.injEq] at h
    rw [← h]
  | succ count ih =>
    intro idx pos tbl tbl' h
    obtain ⟨flags, r, g, b, a, pos2, _, _, _, _, _, _, h⟩ :=
      asepriteParsePaletteLoop_succ_inv d count idx pos tbl tbl' h
    have := ih (idx + 1) pos2
      (tbl.set idx (some (AsepriteColorFromR8G8B8A8 r g b a))) tbl' h
    simpa using this

lemma asepriteParsePaletteLoop_outside (d : List Nat) :
    ∀ (count idx pos : Nat) (tbl tbl' : List (Option aseprite_color)),
    asepriteParsePaletteLoop d count idx pos tbl = some tbl' →
    ∀ j, (j < idx ∨ idx + count ≤ j) → tbl'[j]? = tbl[j]? := by
  intro count
  induction count with
  | zero =>
    intro idx pos tbl tbl' h j _
    rw [asepriteParsePaletteLoop, Option.some.injEq] at h
    rw [← h]
  | succ count ih =>
    intro idx pos tbl tbl' h j hj
    obtain ⟨flags, r, g, b, a, pos2, _, _, _, _, _, _, h⟩ :=
      asepriteParsePaletteLoop_succ_inv d count idx pos tbl tbl' h
    have hrec := ih (idx + 1) pos2
      (tbl.set idx (some (AsepriteColorFromR8G8B8A8 r g b a))) tbl' h j
      (by omega)
    rw [hrec]
    exact List.getElem?_set_ne (by omega)

lemma asepriteParsePaletteLoop_covered (d : List Nat) :
    ∀ (count idx pos : Nat) (tbl tbl' : List (Option aseprite_color)),
    asepriteParsePaletteLoop d count idx pos tbl = some tbl' →
    ∀ k, k < count → idx + k < tbl.length →
    ∃ c, tbl'[idx + k]? = some (some c) := by
  intro count
  induction count with
  | zero =>
    intro idx pos tbl tbl' _ k hk
    omega
  | succ count ih =>
    intro idx pos tbl tbl' h k hk hlen
    obtain ⟨flags, r, g, b, a, pos2, _, _, _, _, _, _, h⟩ :=
      asepriteParsePaletteLoop_succ_inv d count idx pos tbl tbl' h
    cases k with
    | zero =>
      refine ⟨AsepriteColorFromR8G8B8A8 r g b a, ?_⟩
      have hout := asepriteParsePaletteLoop_outside d count (idx + 1) pos2
        (tbl.set idx (some (AsepriteColorFromR8G8B8A8 r g b a))) tbl' h idx
        (by omega)
      rw [Nat.add_zero, hout]
      exact List.getElem?_set_eq_of_lt _ (by simpa using hlen)
    | succ k' =>
      have := ih (idx + 1) pos2
        (tbl.set idx (some (AsepriteColorFromR8G8B8A8 r g b a))) tbl' h k'
        (by omega) (by simpa using (by omega : idx + 1 + k' < tbl.length))
      obtain ⟨c, hc⟩ := this
      exact ⟨c, by rw [show idx + (k' + 1) = idx + 1 + k' by omega]; exact hc⟩

/-- C3 (amended): a modern-palette chunk reads new size, first index
and last index, reads one color record for each index of
[first, last] (consuming the length-prefixed name string after a record
whose flag word is 1 before reading the next record), and sizes the
palette table to the declared new size as a FRESH allocation: entries
outside [first, last] are uninitialized (Option none) afterwards, not
the values left by earlier palette chunks of the same file. -/
theorem aseprite_c3_modern_palette (d : List Nat) (p : Nat) (pal : aseprite_palette)
    (newSize first last : Nat)
    (hsize : asepriteReadU32 d p = some newSize)
    (hfirst : asepriteReadU32 d (p + 4) = some first)
    (hlast : asepriteReadU32 d (p + 8) = some last)
    (hok : AsepriteParsePalette d p = some pal) :
    pal.numColors = newSize ∧
    pal.colors.length = newSize ∧
    (∀ j, j < newSize → (j < first ∨ last < j) → pal.colors[j]? = some none) ∧
    (∀ k, k < last + 1 - first → first + k < newSize →
      ∃ c, pal.colors[first + k]? = some (some c)) ∧
    (∀ (count idx pos : Nat) (tbl : List (Option aseprite_color))
      (r g b a len : Nat),
      asepriteReadU16 d pos = some 1 →
      asepriteReadU8 d (pos + 2) = some r →
      asepriteReadU8 d (pos + 3) = some g →
      asepriteReadU8 d (pos + 4) = some b →
      asepriteReadU8 d (pos + 5) = some a →
      asepriteReadU16 d (pos + 6) = some len →
      asepriteParsePaletteLoop d (count + 1) idx pos tbl =
        asepriteParsePaletteLoop d count (idx + 1) (pos + 8 + len)
          (tbl.set idx (some (AsepriteColorFromR8G8B8A8 r g b a)))) := by
  rw [AsepriteParsePalette] at hok
  simp only [bind, Option.bind_eq_some, Option.pure_def, Option.some.injEq] at hok
  obtain ⟨ns, hns, fi, hfi, la, hla, tbl, htbl, hpal⟩ := hok
  rw [hsize, Option.some.injEq] at hns
  rw [hfirst, Option.some.injEq] at hfi
  rw [hlast, Option.some.injEq] at hla
  subst hns hfi hla
  have hlen : tbl.length = newSize := by
    have := asepriteParsePaletteLoop_length d (last + 1 - first) first (p + 20)
      (List.replicate newSize none) tbl htbl
    simpa using this
  have hcolors : pal.colors = tbl := by rw [← hpal]
  have hnum : pal.numColors = newSize := by rw [← hpal]
  refine ⟨hnum, by rw [hcolors, hlen], ?_, ?_, ?_⟩
  · intro j hj hout
    rw [hcolors]
    have := asepriteParsePaletteLoop_outside d (last + 1 - first) first (p + 20)
      (List.replicate newSize none) tbl htbl j (by omega)
    rw [this, List.getElem?_replicate, if_pos hj]
  · intro k hk hin
    rw [hcolors]
    exact asepriteParsePaletteLoop_covered d (last + 1 - first) first (p + 20)
      (List.replicate newSize none) tbl htbl k hk (by simpa using hin)
  · intro count idx pos tbl2 r g b a len h1 hr hg hb ha hlen2
    rw [asepriteParsePaletteLoop]
    rw [h1, hr, hg, hb, ha]
    simp [hlen2]

/-- The trivial inflate collaborator used by concrete parse states in
this development (cel decompression is external; these inputs contain
no compressed cel). -/
def asepriteNoInflate : List Nat → Option (List Nat) := fun _ => none

/-- Concrete parser state for the C3 counterexample: the input holds
two consecutive modern-palette chunks (type 0x2019, bytes 25 32 little
endian), both declaring size 2; the first writes opaque red at index 0
(range [0, 0]), the second writes opaque blue at index 1 (range
[1, 1]). -/
def asepriteC3State : aseprite_chunk_state :=
  { data :=
      [32, 0, 0, 0, 25, 32, 2, 0, 0, 0, 0, 0, 0, 0, 0, 0, 0, 0,
       0, 0, 0, 0, 0, 0, 0, 0, 0, 0, 255, 0, 0, 255,
       32, 0, 0, 0, 25, 32, 2, 0, 0, 0, 1, 0, 0, 0, 1, 0, 0, 0,
       0, 0, 0, 0, 0, 0, 0, 0, 0, 0, 0, 0, 255, 255],
    file := { palette := { numColors := 0, colors := [] },
              numLayers := 0, layerInfo := [] },
    frame := { numLayers := 0, layers := [] },
    parser := { at_ := 0, availableLayers := 2, usesNewPalette := false } }

/-- C3 counterexample.  After the first modern-palette chunk of
asepriteC3State, entry 0 holds opaque red; the second modern-palette
chunk changes only the range [1, 1], and index 0 lies outside that
range, yet afterwards entry 0 is uninitialized (none) rather than
retaining the red written by the earlier chunk: each modern chunk
mallocs a fresh table. -/
theorem aseprite_c3_counterexample :
    ((AsepriteParseChunk asepriteNoInflate asepriteC3State).map
      (fun s => s.file.palette.colors[0]?)) =
      some (some (some (AsepriteColorFromR8G8B8A8 255 0 0 255))) ∧
    ((AsepriteParseChunkN asepriteNoInflate 2 asepriteC3State).map
      (fun s => s.file.palette.colors[0]?)) = some (some none) ∧
    (some (AsepriteColorFromR8G8B8A8 255 0 0 255) : Option aseprite_color) ≠ none := by
  refine ⟨?_, ?_, by simp⟩
  · simp [AsepriteParseChunk, AsepriteParsePalette, asepriteParsePaletteLoop,
      asepriteReadU8, asepriteReadU16, asepriteReadU32, asepriteC3State]
  · simp [AsepriteParseChunkN, AsepriteParseChunk, AsepriteParsePalette,
      asepriteParsePaletteLoop, asepriteReadU8, asepriteReadU16, asepriteReadU32,
      asepriteC3State]

/-- Concrete modern-palette chunk payload for the C3 witness: size 3,
change range [1, 2]; the record for index 1 carries flag 1 and is
followed by a 2-byte name string that must be consumed before the
record for index 2. -/
def asepriteC3NamedBytes : List Nat :=
  [3, 0, 0, 0, 1, 0, 0, 0, 2, 0, 0, 0, 0, 0, 0, 0, 0, 0, 0, 0,
   1, 0, 10, 20, 30, 40, 2, 0, 65, 66,
   0, 0, 50, 60, 70, 80]

/-- Witness for aseprite_c3_modern_palette: the named-entry payload
parses, the table is sized to the declared 3, and index 0 (outside the
change range [1, 2]) is uninitialized. -/
theorem aseprite_c3_witness :
    AsepriteParsePalette asepriteC3NamedBytes 0 =
      some { numColors := 3,
             colors := [none, some (AsepriteColorFromR8G8B8A8 10 20 30 40),
               some (AsepriteColorFromR8G8B8A8 50 60 70 80)] } ∧
    ({ numColors := 3,
       colors := [none, some (AsepriteColorFromR8G8B8A8 10 20 30 40),
         some (AsepriteColorFromR8G8B8A8 50 60 70 80)] } : aseprite_palette).numColors
      = 3 ∧
    ({ numColors := 3,
       colors := [none, some (AsepriteColorFromR8G8B8A8 10 20 30 40),
         some (AsepriteColorFromR8G8B8A8 50 60 70 80)] } : aseprite_palette).colors.length
      = 3 ∧
    ({ numColors := 3,
       colors := [none, some (AsepriteColorFromR8G8B8A8 10 20 30 40),
         some (AsepriteColorFromR8G8B8A8 50 60 70 80)] } : aseprite_palette).colors[0]?
      = some none := by
  have hok : AsepriteParsePalette asepriteC3NamedBytes 0 =
      some { numColors := 3,
             colors := [none, some (AsepriteColorFromR8G8B8A8 10 20 30 40),
               some (AsepriteColorFromR8G8B8A8 50 60 70 80)] } := by
    simp [AsepriteParsePalette, asepriteParsePaletteLoop, asepriteReadU8,
      asepriteReadU16, asepriteReadU32, asepriteC3NamedBytes]
  have h := aseprite_c3_modern_palette asepriteC3NamedBytes 0 _ 3 1 2
    (by simp [asepriteReadU32, asepriteC3NamedBytes])
    (by simp [asepriteReadU32, asepriteC3NamedBytes])
    (by simp [asepriteReadU32, asepriteC3NamedBytes]) hok
  exact ⟨hok, h.1, h.2.1, h.2.2.1 0 (by norm_num) (Or.inl (by norm_num))⟩

lemma asepriteParseOldColors_spec (d : List Nat) :
    ∀ (n idx pos : Nat) (tbl tbl' : List (Option aseprite_color)) (pos' : Nat),
    asepriteParseOldColors d n idx pos tbl = some (tbl', pos') →
    pos' = pos + 3 * n ∧ tbl'.length = tbl.length ∧
    (∀ j, (j < idx ∨ idx + n ≤ j) → tbl'[j]? = tbl[j]?) ∧
    (∀ k, k < n → ∃ r g b,
      asepriteReadU8 d (pos + 3 * k) = some r ∧
      asepriteReadU8 d (pos + (3 * k + 1)) = some g ∧
      asepriteReadU8 d (pos + (3 * k + 2)) = some b ∧
      (idx + k < tbl.length →
        tbl'[idx + k]? = some (some (AsepriteColorFromR8G8B8A8 r g b 255)))) := by
  intro n
  induction n with
  | zero =>
    intro idx pos tbl tbl' pos' h
    rw [asepriteParseOldColors, Option.some.injEq, Prod.mk.injEq] at h
    obtain ⟨h1, h2⟩ := h
    subst h1
    subst h2
    refine ⟨by omega, rfl, fun j _ => rfl, fun k hk => by omega⟩
  | succ n ih =>
    intro idx pos tbl tbl' pos' h
    rw [asepriteParseOldColors] at h
    simp only [bind, Option.bind_eq_some, Option.pure_def, Option.some.injEq] at h
    obtain ⟨r, hr, g, hg, b, hb, h⟩ := h
    obtain ⟨hpos, hlen, hout, hcov⟩ := ih (idx + 1) (pos + 3)
      (tbl.set idx (some (AsepriteColorFromR8G8B8A8 r g b 255))) tbl' pos' h
    refine ⟨by omega, by simpa using hlen, ?_, ?_⟩
    · intro j hj
      rw [hout j (by omega)]
      exact List.getElem?_set_ne (by omega)
    · intro k hk
      cases k with
      | zero =>
        refine ⟨r, g, b, by simpa using hr, by simpa using hg, by simpa using hb, ?_⟩
        intro hidx
        rw [Nat.add_zero, hout idx (by omega)]
        exact List.getElem?_set_eq_of_lt _ (by simpa using hidx)
      | succ k' =>
        obtain ⟨r2, g2, b2, hr2, hg2, hb2, hc2⟩ := hcov k' (by omega)
        refine ⟨r2, g2, b2, ?_, ?_, ?_, ?_⟩
        · rw [show pos + 3 * (k' + 1) = pos + 3 + 3 * k' by ring]
          exact hr2
        · rw [show pos + (3 * (k' + 1) + 1) = pos + 3 + (3 * k' + 1) by ring]
          exact hg2
        · rw [show pos + (3 * (k' + 1) + 2) = pos + 3 + (3 * k' + 2) by ring]
          exact hb2
        · intro hidx
          rw [show idx + (k' + 1) = idx + 1 + k' by ring]
          exact hc2 (by simpa using (by omega : idx + 1 + k' < tbl.length))

lemma asepriteParseOldColors_alpha (d : List Nat) (n idx pos : Nat)
    (tbl tbl' : List (Option aseprite_color)) (pos' : Nat)
    (h : asepriteParseOldColors d n idx pos tbl = some (tbl', pos'))
    (hin : ∀ (i : Nat) (c : aseprite_color), tbl[i]? = some (some c) → c.a8 = 255 ∧ c.a = 1) :
    ∀ (i : Nat) (c : aseprite_color), tbl'[i]? = some (some c) → c.a8 = 255 ∧ c.a = 1 := by
  obtain ⟨_, hlen, hout, hcov⟩ := asepriteParseOldColors_spec d n idx pos tbl tbl' pos' h
  intro i c hc
  by_cases hrange : i < idx ∨ idx + n ≤ i
  · exact hin i c (by rw [← hout i hrange]; exact hc)
  · by_cases hbound : i < tbl.length
    · obtain ⟨r, g, b, _, _, _, hk⟩ := hcov (i - idx) (by omega)
      have := hk (by omega)
      rw [show idx + (i - idx) = i by omega] at this
      rw [this] at hc
      rw [Option.some.injEq, Option.some.injEq] at hc
      rw [← hc]
      refine ⟨rfl, ?_⟩
      show ((255 : Nat) : ℚ) / 255 = 1
      norm_num
    · rw [List.getElem?_eq_none (by omega)] at hc
      exact absurd hc (by simp)

lemma asepriteParseOldPackets_spec (d : List Nat) :
    ∀ (n pos : Nat) (tbl tbl' : List (Option aseprite_color)),
    asepriteParseOldPackets d n pos tbl = some tbl' →
    tbl'.length = tbl.length ∧
    ((∀ (i : Nat) (c : aseprite_color), tbl[i]? = some (some c) → c.a8 = 255 ∧ c.a = 1) →
      ∀ (i : Nat) (c : aseprite_color), tbl'[i]? = some (some c) → c.a8 = 255 ∧ c.a = 1) := by
  intro n
  induction n with
  | zero =>
    intro pos tbl tbl' h
    rw [asepriteParseOldPackets, Option.some.injEq] at h
    subst h
    exact ⟨rfl, fun hin => hin⟩
  | succ n ih =>
    intro pos tbl tbl' h
    rw [asepriteParseOldPackets] at h
    simp only [bind, Option.bind_eq_some, Option.pure_def, Option.some.injEq] at h
    obtain ⟨start, hs, num, hn, r, hrc, h⟩ := h
    obtain ⟨hlen1, hinv1⟩ :
        r.1.length = tbl.length ∧
        ((∀ (i : Nat) (c : aseprite_color), tbl[i]? = some (some c) → c.a8 = 255 ∧ c.a = 1) →
          ∀ (i : Nat) (c : aseprite_color), r.1[i]? = some (some c) → c.a8 = 255 ∧ c.a = 1) := by
      have hspec := asepriteParseOldColors_spec d (if num = 0 then 256 else num) start
        (pos + 2) tbl r.1 r.2 (by rw [← hrc])
      exact ⟨hspec.2.1, fun hin =>
        asepriteParseOldColors_alpha d (if num = 0 then 256 else num) start (pos + 2)
          tbl r.1 r.2 (by rw [← hrc]) hin⟩
    obtain ⟨hlen2, hinv2⟩ := ih r.2 r.1 tbl' h
    exact ⟨by rw [hlen2, hlen1], fun hin => hinv2 (hinv1 hin)⟩

/-- C4: the legacy palette decoder reads a packet count and, for every
packet (not just the first), a start index byte and a count byte where
0 means 256, followed by the packet's colors; every color run writes
one color per index of [start, start + count), each built from three
8-bit channel bytes with alpha implicitly full (a8 = 255, float alpha
1), into a fresh 256-entry table; a legacy-palette chunk dispatched
while no modern chunk has been seen leaves the document with a
256-entry color table.  The fourth conjunct is the per-packet stepping
equation (holding for an arbitrary packet, at an arbitrary position and
table state) and the fifth characterizes an arbitrary color run. -/
theorem aseprite_c4_old_palette :
    (∀ (d : List Nat) (p packets : Nat),
      asepriteReadU16 d p = some packets →
      AsepriteParseOldPalette d p =
        asepriteParseOldPackets d packets (p + 2) (List.replicate 256 none)) ∧
    (∀ (d : List Nat) (p : Nat) (tbl : List (Option aseprite_color)),
      AsepriteParseOldPalette d p = some tbl → tbl.length = 256) ∧
    (∀ (d : List Nat) (p : Nat) (tbl : List (Option aseprite_color)),
      AsepriteParseOldPalette d p = some tbl →
      ∀ (i : Nat) (c : aseprite_color), tbl[i]? = some (some c) →
        c.a8 = 255 ∧ c.a = 1) ∧
    (∀ (d : List Nat) (n pos start cnt pos2 : Nat)
      (tbl tbl2 : List (Option aseprite_color)),
      asepriteReadU8 d pos = some start →
      asepriteReadU8 d (pos + 1) = some cnt →
      asepriteParseOldColors d (if cnt = 0 then 256 else cnt) start (pos + 2) tbl =
        some (tbl2, pos2) →
      asepriteParseOldPackets d (n + 1) pos tbl =
        asepriteParseOldPackets d n pos2 tbl2) ∧
    (∀ (d : List Nat) (n idx pos pos2 : Nat)
      (tbl tbl2 : List (Option aseprite_color)),
      asepriteParseOldColors d n idx pos tbl = some (tbl2, pos2) →
      pos2 = pos + 3 * n ∧ tbl2.length = tbl.length ∧
      (∀ j, (j < idx ∨ idx + n ≤ j) → tbl2[j]? = tbl[j]?) ∧
      (∀ k, k < n → ∃ r g b,
        asepriteReadU8 d (pos + 3 * k) = some r ∧
        asepriteReadU8 d (pos + (3 * k + 1)) = some g ∧
        asepriteReadU8 d (pos + (3 * k + 2)) = some b ∧
        (idx + k < tbl.length →
          tbl2[idx + k]? = some (some (AsepriteColorFromR8G8B8A8 r g b 255))))) ∧
    (∀ (inflate : List Nat → Option (List Nat)) (s s' : aseprite_chunk_state),
      asepriteChunkTypeAt s = some 4 → s.parser.usesNewPalette = false →
      AsepriteParseChunk inflate s = some s' →
      s'.file.palette.colors.length = 256) := by
  have hlen : ∀ (d : List Nat) (p : Nat) (tbl : List (Option aseprite_color)),
      AsepriteParseOldPalette d p = some tbl → tbl.length = 256 := by
    intro d p tbl h
    rw [AsepriteParseOldPalette] at h
    simp only [bind, Option.bind_eq_some] at h
    obtain ⟨packets, _, h⟩ := h
    have := (asepriteParseOldPackets_spec d packets (p + 2)
      (List.replicate 256 none) tbl h).1
    simpa using this
  refine ⟨?_, hlen, ?_, ?_, ?_, ?_⟩
  · intro d p packets hp
    rw [AsepriteParseOldPalette, hp]
    rfl
  · intro d p tbl h
    rw [AsepriteParseOldPalette] at h
    simp only [bind, Option.bind_eq_some] at h
    obtain ⟨packets, _, h⟩ := h
    refine (asepriteParseOldPackets_spec d packets (p + 2)
      (List.replicate 256 none) tbl h).2 ?_
    intro i c hc
    rw [List.getElem?_replicate] at hc
    by_cases hi : i < 256
    · rw [if_pos hi, Option.some.injEq] at hc
      exact absurd hc (by simp)
    · rw [if_neg hi] at hc
      exact absurd hc (by simp)
  · intro d n pos start cnt pos2 tbl tbl2 hs hc hcolors
    rw [asepriteParseOldPackets, hs, hc]
    simp [hcolors]
  · intro d n idx pos pos2 tbl tbl2 h
    exact asepriteParseOldColors_spec d n idx pos tbl tbl2 pos2 h
  · intro inflate s s' hty hflag hstep
    rw [AsepriteParseChunk] at hstep
    simp only [bind, Option.bind_eq_some] at hstep
    obtain ⟨size, hsize, ty, hty2, hstep⟩ := hstep
    rw [asepriteChunkTypeAt] at hty
    rw [hty, Option.some.injEq] at hty2
    subst hty2
    rw [if_pos rfl] at hstep
    rw [show ({ s with parser := { s.parser with at_ := s.parser.at_ + size }
      } : aseprite_chunk_state).parser.usesNewPalette = s.parser.usesNewPalette
      from rfl] at hstep
    rw [hflag] at hstep
    simp only [Bool.false_eq_true, if_false, Option.bind_eq_some, Option.pure_def,
      Option.some.injEq] at hstep
    obtain ⟨colors, hcolors, hstep⟩ := hstep
    rw [← hstep]
    exact hlen _ _ _ hcolors

/-- Concrete legacy-palette chunk payload for the C4 witness: packet
count 2; the first packet starts at index 2 with 1 color (9, 8, 7), the
second starts at index 5 with 1 color (6, 5, 4). -/
def asepriteC4Bytes : List Nat := [2, 0, 2, 1, 9, 8, 7, 5, 1, 6, 5, 4]

/-- The table the two-packet C4 witness payload decodes to. -/
def asepriteC4Table : List (Option aseprite_color) :=
  ((List.replicate 256 none).set 2 (some (AsepriteColorFromR8G8B8A8 9 8 7 255))).set 5
    (some (AsepriteColorFromR8G8B8A8 6 5 4 255))

/-- Witness for aseprite_c4_old_palette on a two-packet chunk: the
payload parses to a 256-entry table with full-alpha colors; the entry
equation and the stepping equation are exercised at the first packet
and the color-run characterization at the second packet, whose color
(6, 5, 4) lands at its start index 5. -/
theorem aseprite_c4_witness :
    AsepriteParseOldPalette asepriteC4Bytes 0 = some asepriteC4Table ∧
    asepriteC4Table.length = 256 ∧
    ((AsepriteColorFromR8G8B8A8 9 8 7 255).a8 = 255 ∧
      (AsepriteColorFromR8G8B8A8 9 8 7 255).a = 1) ∧
    AsepriteParseOldPalette asepriteC4Bytes 0 =
      asepriteParseOldPackets asepriteC4Bytes 2 2 (List.replicate 256 none) ∧
    asepriteParseOldPackets asepriteC4Bytes 2 2 (List.replicate 256 none) =
      asepriteParseOldPackets asepriteC4Bytes 1 7
        ((List.replicate 256 none).set 2
          (some (AsepriteColorFromR8G8B8A8 9 8 7 255))) ∧
    asepriteC4Table[5]? = some (some (AsepriteColorFromR8G8B8A8 6 5 4 255)) := by
  have hok : AsepriteParseOldPalette asepriteC4Bytes 0 = some asepriteC4Table := by
    simp [AsepriteParseOldPalette, asepriteParseOldPackets, asepriteParseOldColors,
      asepriteReadU8, asepriteReadU16, asepriteC4Bytes, asepriteC4Table]
  have h := aseprite_c4_old_palette
  have hrun1 : asepriteParseOldColors asepriteC4Bytes (if 1 = 0 then 256 else 1) 2 4
      (List.replicate 256 none) =
      some ((List.replicate 256 none).set 2
        (some (AsepriteColorFromR8G8B8A8 9 8 7 255)), 7) := by
    simp [asepriteParseOldColors, asepriteReadU8, asepriteC4Bytes]
  have hrun2 : asepriteParseOldColors asepriteC4Bytes 1 5 9
      ((List.replicate 256 none).set 2
        (some (AsepriteColorFromR8G8B8A8 9 8 7 255))) =
      some (asepriteC4Table, 12) := by
    simp [asepriteParseOldColors, asepriteReadU8, asepriteC4Bytes, asepriteC4Table]
  refine ⟨hok, h.2.1 asepriteC4Bytes 0 asepriteC4Table hok, ?_, ?_, ?_, ?_⟩
  · refine h.2.2.1 asepriteC4Bytes 0 asepriteC4Table hok 2
      (AsepriteColorFromR8G8B8A8 9 8 7 255) ?_
    simp [asepriteC4Table, List.getElem?_set_ne, List.getElem?_set_eq_of_lt]
  · exact h.1 asepriteC4Bytes 0 2 (by simp [asepriteReadU16, asepriteC4Bytes])
  · exact h.2.2.2.1 asepriteC4Bytes 1 2 2 1 7 (List.replicate 256 none)
      ((List.replicate 256 none).set 2 (some (AsepriteColorFromR8G8B8A8 9 8 7 255)))
      (by simp [asepriteReadU8, asepriteC4Bytes])
      (by simp [asepriteReadU8, asepriteC4Bytes]) hrun1
  · obtain ⟨r, g, b, hr, hg, hb, hw⟩ :=
      (h.2.2.2.2.1 asepriteC4Bytes 1 5 9 12
        ((List.replicate 256 none).set 2
          (some (AsepriteColorFromR8G8B8A8 9 8 7 255))) asepriteC4Table
        hrun2).2.2.2 0 (by norm_num)
    have hr6 : r = 6 := by
      simp [asepriteReadU8, asepriteC4Bytes] at hr
      omega
    have hg5 : g = 5 := by
      simp [asepriteReadU8, asepriteC4Bytes] at hg
      omega
    have hb4 : b = 4 := by
      simp [asepriteReadU8, asepriteC4Bytes] at hb
      omega
    subst hr6
    subst hg5
    subst hb4
    simpa using hw

lemma asepriteParseChunk_flag_monotone (inflate : List Nat → Option (List Nat))
    (s t : aseprite_chunk_state)
    (hstep : AsepriteParseChunk inflate s = some t)
    (hflag : s.parser.usesNewPalette = true) :
    t.parser.usesNewPalette = true := by
  rw [AsepriteParseChunk] at hstep
  simp only [bind, Option.bind_eq_some] at hstep
  obtain ⟨size, hsize, ty, hty, hstep⟩ := hstep
  split_ifs at hstep <;>
    simp only [Option.bind_eq_some, Option.pure_def, Option.some.injEq] at hstep
  all_goals obtain ⟨x1, hx1, rfl⟩ := hstep
  all_goals simp [hflag]

lemma asepriteParseChunk_sets_flag (inflate : List Nat → Option (List Nat))
    (s t : aseprite_chunk_state)
    (hstep : AsepriteParseChunk inflate s = some t)
    (hty : asepriteChunkTypeAt s = some 0x2019) :
    t.parser.usesNewPalette = true := by
  rw [AsepriteParseChunk] at hstep
  simp only [bind, Option.bind_eq_some] at hstep
  obtain ⟨size, hsize, ty, hty2, hstep⟩ := hstep
  rw [asepriteChunkTypeAt] at hty
  rw [hty, Option.some.injEq] at hty2
  subst hty2
  rw [if_neg (by norm_num), if_neg (by norm_num), if_neg (by norm_num),
    if_neg (by norm_num), if_neg (by norm_num), if_neg (by norm_num),
    if_neg (by norm_num), if_pos rfl] at hstep
  simp only [Option.bind_eq_some, Option.pure_def, Option.some.injEq] at hstep
  obtain ⟨pal, hpal, rfl⟩ := hstep
  rfl

lemma asepriteParseChunk_legacy_noop (inflate : List Nat → Option (List Nat))
    (s t : aseprite_chunk_state)
    (hstep : AsepriteParseChunk inflate s = some t)
    (hflag : s.parser.usesNewPalette = true)
    (hty : asepriteChunkTypeAt s = some 0x0004 ∨ asepriteChunkTypeAt s = some 0x0011) :
    t.file.palette = s.file.palette := by
  rw [AsepriteParseChunk] at hstep
  simp only [bind, Option.bind_eq_some] at hstep
  obtain ⟨size, hsize, ty, hty2, hstep⟩ := hstep
  rw [asepriteChunkTypeAt] at hty
  rcases hty with hty | hty
  · rw [hty, Option.some.injEq] at hty2
    subst hty2
    rw [if_pos rfl] at hstep
    rw [show ({ s with parser := { s.parser with at_ := s.parser.at_ + size }
      } : aseprite_chunk_state).parser.usesNewPalette = s.parser.usesNewPalette
      from rfl, hflag] at hstep
    rw [if_pos rfl, Option.pure_def, Option.some.injEq] at hstep
    subst hstep
    rfl
  · rw [hty, Option.some.injEq] at hty2
    subst hty2
    norm_num at hstep
    subst hstep
    rfl

/-- C5: once a modern-palette chunk has been processed (it sets the
modern-palette flag, and every later chunk step preserves the flag), no
later legacy-palette chunk (type 0x0004 or 0x0011) modifies the
palette: after any number of further chunk steps, dispatching a
legacy-palette chunk leaves the palette exactly as it was. -/
theorem aseprite_c5_palette_precedence :
    (∀ (inflate : List Nat → Option (List Nat)) (s t : aseprite_chunk_state),
      AsepriteParseChunk inflate s = some t →
      asepriteChunkTypeAt s = some 0x2019 →
      t.parser.usesNewPalette = true) ∧
    (∀ (inflate : List Nat → Option (List Nat)) (n : Nat)
      (s s' : aseprite_chunk_state),
      s.parser.usesNewPalette = true →
      AsepriteParseChunkN inflate n s = some s' →
      s'.parser.usesNewPalette = true ∧
      ∀ t : aseprite_chunk_state, AsepriteParseChunk inflate s' = some t →
        (asepriteChunkTypeAt s' = some 0x0004 ∨ asepriteChunkTypeAt s' = some 0x0011) →
        t.file.palette = s'.file.palette) := by
  constructor
  · intro inflate s t hstep hty
    exact asepriteParseChunk_sets_flag inflate s t hstep hty
  · intro inflate n
    induction n with
    | zero =>
      intro s s' hflag hstepN
      rw [AsepriteParseChunkN, Option.some.injEq] at hstepN
      subst hstepN
      exact ⟨hflag, fun t hstep hty =>
        asepriteParseChunk_legacy_noop inflate s t hstep hflag hty⟩
    | succ n ih =>
      intro s s' hflag hstepN
      rw [AsepriteParseChunkN, Option.bind_eq_some] at hstepN
      obtain ⟨s1, hstep1, hstepN⟩ := hstepN
      exact ih s1 s' (asepriteParseChunk_flag_monotone inflate s s1 hstep1 hflag) hstepN

/-- Concrete parser state for the C5 witness: the flag that a modern
palette chunk was processed is set, the palette holds one red entry,
and the next chunk is a decodable legacy-palette chunk (type 0x0004,
one packet writing index 0). -/
def asepriteC5State : aseprite_chunk_state :=
  { data := [13, 0, 0, 0, 4, 0, 1, 0, 0, 1, 9, 8, 7],
    file := { palette :=
                { numColors := 1,
                  colors := [some (AsepriteColorFromR8G8B8A8 255 0 0 255)] },
              numLayers := 0, layerInfo := [] },
    frame := { numLayers := 0, layers := [] },
    parser := { at_ := 0, availableLayers := 2, usesNewPalette := true } }

/-- The state after the C5 witness step: only the cursor moved. -/
def asepriteC5StateAfter : aseprite_chunk_state :=
  { data := [13, 0, 0, 0, 4, 0, 1, 0, 0, 1, 9, 8, 7],
    file := { palette :=
                { numColors := 1,
                  colors := [some (AsepriteColorFromR8G8B8A8 255 0 0 255)] },
              numLayers := 0, layerInfo := [] },
    frame := { numLayers := 0, layers := [] },
    parser := { at_ := 13, availableLayers := 2, usesNewPalette := true } }

/-- Witness for aseprite_c5_palette_precedence: in asepriteC5State the
legacy chunk would decode (it writes index 0), yet dispatching it
leaves the one-entry modern palette untouched. -/
theorem aseprite_c5_witness :
    asepriteC5State.parser.usesNewPalette = true ∧
    AsepriteParseChunk asepriteNoInflate asepriteC5State =
      some asepriteC5StateAfter ∧
    asepriteC5StateAfter.file.palette = asepriteC5State.file.palette := by
  have hstep : AsepriteParseChunk asepriteNoInflate asepriteC5State =
      some asepriteC5StateAfter := by
    simp [AsepriteParseChunk, asepriteReadU16, asepriteReadU32, asepriteC5State,
      asepriteC5StateAfter]
  refine ⟨rfl, hstep, ?_⟩
  exact (aseprite_c5_palette_precedence.2 asepriteNoInflate 0 asepriteC5State
    asepriteC5State rfl rfl).2 _ hstep
    (Or.inl (by simp [asepriteChunkTypeAt, asepriteReadU16, asepriteC5State]))

/-- C6 (amended): every chunk-dispatch step repositions the cursor to
chunk start + declared chunk size, regardless of the chunk type and of
what the handler consumed; type 0x0004 is routed to the legacy palette
decoder (when no modern chunk has been seen); type 0x0011, although a
recognized legacy-palette type code, is a no-op that only moves the
cursor; chunks of unrecognized type change nothing but the cursor. -/
theorem aseprite_c6_chunk_dispatch :
    (∀ (inflate : List Nat → Option (List Nat)) (s t : aseprite_chunk_state)
      (size : Nat),
      asepriteReadU32 s.data s.parser.at_ = some size →
      AsepriteParseChunk inflate s = some t →
      t.parser.at_ = s.parser.at_ + size) ∧
    (∀ (inflate : List Nat → Option (List Nat)) (s t : aseprite_chunk_state)
      (size : Nat),
      asepriteReadU32 s.data s.parser.at_ = some size →
      asepriteChunkTypeAt s = some 0x0011 →
      AsepriteParseChunk inflate s = some t →
      t = { data := s.data, file := s.file, frame := s.frame,
            parser := { at_ := s.parser.at_ + size,
                        availableLayers := s.parser.availableLayers,
                        usesNewPalette := s.parser.usesNewPalette } }) ∧
    (∀ (inflate : List Nat → Option (List Nat)) (s t : aseprite_chunk_state)
      (size ty : Nat),
      asepriteReadU32 s.data s.parser.at_ = some size →
      asepriteChunkTypeAt s = some ty →
      ty ≠ 0x0004 → ty ≠ 0x0011 → ty ≠ 0x2004 → ty ≠ 0x2005 → ty ≠ 0x2016 →
      ty ≠ 0x2017 → ty ≠ 0x2018 → ty ≠ 0x2019 → ty ≠ 0x2020 →
      AsepriteParseChunk inflate s = some t →
      t = { data := s.data, file := s.file, frame := s.frame,
            parser := { at_ := s.parser.at_ + size,
                        availableLayers := s.parser.availableLayers,
                        usesNewPalette := s.parser.usesNewPalette } }) ∧
    (∀ (inflate : List Nat → Option (List Nat)) (s t : aseprite_chunk_state)
      (size : Nat),
      asepriteReadU32 s.data s.parser.at_ = some size →
      asepriteChunkTypeAt s = some 0x0004 →
      s.parser.usesNewPalette = false →
      AsepriteParseChunk inflate s = some t →
      ∃ colors, AsepriteParseOldPalette s.data (s.parser.at_ + 6) = some colors ∧
        t = { data := s.data,
              file := { palette :=
                          { numColors := s.file.palette.numColors,
                            colors := colors },
                        numLayers := s.file.numLayers,
                        layerInfo := s.file.layerInfo },
              frame := s.frame,
              parser := { at_ := s.parser.at_ + size,
                          availableLayers := s.parser.availableLayers,
                          usesNewPalette := s.parser.usesNewPalette } }) := by
  refine ⟨?_, ?_, ?_, ?_⟩
  · intro inflate s t size hsize hstep
    rw [AsepriteParseChunk] at hstep
    simp only [bind, Option.bind_eq_some] at hstep
    obtain ⟨size2, hsize2, ty, hty, hstep⟩ := hstep
    rw [hsize, Option.some.injEq] at hsize2
    subst hsize2
    split_ifs at hstep <;>
      simp only [Option.bind_eq_some, Option.pure_def, Option.some.injEq] at hstep
    all_goals obtain ⟨x1, hx1, rfl⟩ := hstep
    all_goals rfl
  · intro inflate s t size hsize hty2 hstep
    rw [AsepriteParseChunk] at hstep
    simp only [bind, Option.bind_eq_some] at hstep
    obtain ⟨size2, hsize2, ty, hty, hstep⟩ := hstep
    rw [hsize, Option.some.injEq] at hsize2
    subst hsize2
    rw [asepriteChunkTypeAt] at hty2
    rw [hty2, Option.some.injEq] at hty
    subst hty
    rw [if_neg (by norm_num), if_pos rfl, Option.pure_def, Option.some.injEq] at hstep
    exact hstep.symm
  · intro inflate s t size ty hsize hty2 h1 h2 h3 h4 h5 h6 h7 h8 h9 hstep
    rw [AsepriteParseChunk] at hstep
    simp only [bind, Option.bind_eq_some] at hstep
    obtain ⟨size2, hsize2, ty2, hty, hstep⟩ := hstep
    rw [hsize, Option.some.injEq] at hsize2
    subst hsize2
    rw [asepriteChunkTypeAt] at hty2
    rw [hty2, Option.some.injEq] at hty
    subst hty
    rw [if_neg h1, if_neg h2, if_neg h3, if_neg h4, if_neg h5, if_neg h6,
      if_neg h7, if_neg h8, if_neg h9, Option.pure_def, Option.some.injEq] at hstep
    exact hstep.symm
  · intro inflate s t size hsize hty2 hflag hstep
    rw [AsepriteParseChunk] at hstep
    simp only [bind, Option.bind_eq_some] at hstep
    obtain ⟨size2, hsize2, ty, hty, hstep⟩ := hstep
    rw [hsize, Option.some.injEq] at hsize2
    subst hsize2
    rw [asepriteChunkTypeAt] at hty2
    rw [hty2, Option.some.injEq] at hty
    subst hty
    rw [if_pos rfl] at hstep
    rw [show ({ s with parser := { s.parser with at_ := s.parser.at_ + size }
      } : aseprite_chunk_state).parser.usesNewPalette = s.parser.usesNewPalette
      from rfl, hflag] at hstep
    simp only [Bool.false_eq_true, if_false, Option.bind_eq_some, Option.pure_def,
      Option.some.injEq] at hstep
    obtain ⟨colors, hcolors, rfl⟩ := hstep
    refine ⟨colors, hcolors, ?_⟩
    rw [hflag]

/-- Concrete parser state for the C6 counterexample and witness: the
chunk at the cursor has type 0x0011 (the second legacy-palette type
code) and its payload is a well-formed legacy palette packet (packet
count 1, start 0, one color 9 8 7). -/
def asepriteC6State : aseprite_chunk_state :=
  { data := [13, 0, 0, 0, 17, 0, 1, 0, 0, 1, 9, 8, 7],
    file := { palette := { numColors := 0, colors := [] },
              numLayers := 0, layerInfo := [] },
    frame := { numLayers := 0, layers := [] },
    parser := { at_ := 0, availableLayers := 2, usesNewPalette := false } }

/-- The state after dispatching the 0x0011 chunk: only the cursor
moved. -/
def asepriteC6StateAfter : aseprite_chunk_state :=
  { data := [13, 0, 0, 0, 17, 0, 1, 0, 0, 1, 9, 8, 7],
    file := { palette := { numColors := 0, colors := [] },
              numLayers := 0, layerInfo := [] },
    frame := { numLayers := 0, layers := [] },
    parser := { at_ := 13, availableLayers := 2, usesNewPalette := false } }

/-- C6 counterexample.  The chunk of asepriteC6State has legacy palette
type code 0x0011 and a payload the legacy palette decoder accepts
(yielding a 256-entry table with color (9, 8, 7) at index 0), yet
dispatching it leaves the document palette empty: type 0x0011 is NOT
routed to the legacy palette decoder, only 0x0004 is. -/
theorem aseprite_c6_counterexample :
    AsepriteParseChunk asepriteNoInflate asepriteC6State =
      some asepriteC6StateAfter ∧
    asepriteC6StateAfter.file.palette.colors = [] ∧
    AsepriteParseOldPalette asepriteC6State.data 6 =
      some ((List.replicate 256 none).set 0
        (some (AsepriteColorFromR8G8B8A8 9 8 7 255))) ∧
    ((List.replicate 256 (none : Option aseprite_color)).set 0
      (some (AsepriteColorFromR8G8B8A8 9 8 7 255))) ≠ [] := by
  refine ⟨?_, rfl, ?_, ?_⟩
  · simp [AsepriteParseChunk, asepriteReadU16, asepriteReadU32, asepriteC6State,
      asepriteC6StateAfter]
  · simp [AsepriteParseOldPalette, asepriteParseOldPackets, asepriteParseOldColors,
      asepriteReadU8, asepriteReadU16, asepriteC6State]
  · intro h
    have := congrArg List.length h
    simp at this

/-- Witness for aseprite_c6_chunk_dispatch: the 0x0011 chunk of
asepriteC6State moves the cursor by the declared 13 bytes and changes
nothing else. -/
theorem aseprite_c6_witness :
    asepriteC6StateAfter.parser.at_ = asepriteC6State.parser.at_ + 13 ∧
    asepriteC6StateAfter =
      { data := asepriteC6State.data, file := asepriteC6State.file,
        frame := asepriteC6State.frame,
        parser := { at_ := asepriteC6State.parser.at_ + 13,
                    availableLayers := asepriteC6State.parser.availableLayers,
                    usesNewPalette := asepriteC6State.parser.usesNewPalette } } := by
  have hstep : AsepriteParseChunk asepriteNoInflate asepriteC6State =
      some asepriteC6StateAfter := by
    simp [AsepriteParseChunk, asepriteReadU16, asepriteReadU32, asepriteC6State,
      asepriteC6StateAfter]
  have hsize : asepriteReadU32 asepriteC6State.data asepriteC6State.parser.at_ =
      some 13 := by
    simp [asepriteReadU32, asepriteC6State]
  constructor
  · exact aseprite_c6_chunk_dispatch.1 asepriteNoInflate asepriteC6State
      asepriteC6StateAfter 13 hsize hstep
  · exact aseprite_c6_chunk_dispatch.2.1 asepriteNoInflate asepriteC6State
      asepriteC6StateAfter 13 hsize
      (by simp [asepriteChunkTypeAt, asepriteReadU16, asepriteC6State]) hstep

/-- C10: when a cel chunk is dispatched and the frame's recorded layer
count differs from the global layer count, a fresh cel array of the
global count is allocated (all slots uninitialized, discarding every
previously decoded cel of the frame) and the cel is decoded into it;
when the counts agree the existing array is kept; in either case the
decoded cel is stored at its declared layer index and the frame's layer
count is not changed by the cel decoder itself. -/
theorem aseprite_c10_cel_realloc :
    (∀ (inflate : List Nat → Option (List Nat)) (s t : aseprite_chunk_state)
      (size : Nat),
      asepriteReadU32 s.data s.parser.at_ = some size →
      asepriteChunkTypeAt s = some 0x2005 →
      AsepriteParseChunk inflate s = some t →
      (s.frame.numLayers ≠ s.file.numLayers →
        ∃ fr, AsepriteParseCel inflate
          { numLayers := s.file.numLayers,
            layers := List.replicate s.file.numLayers asepriteEmptySlot }
          s.data (s.parser.at_ + 6) (size - 6) = some fr ∧ t.frame = fr) ∧
      (s.frame.numLayers = s.file.numLayers →
        ∃ fr, AsepriteParseCel inflate s.frame s.data (s.parser.at_ + 6) (size - 6) =
          some fr ∧ t.frame = fr)) ∧
    (∀ (inflate : List Nat → Option (List Nat))
      (fr0 fr : aseprite_parse_frame) (d : List Nat) (p len idx : Nat),
      asepriteReadU16 d p = some idx →
      AsepriteParseCel inflate fr0 d p len = some fr →
      fr.numLayers = fr0.numLayers ∧
      ∃ slot, fr.layers = fr0.layers.set idx slot) := by
  constructor
  · intro inflate s t size hsize hty2 hstep
    rw [AsepriteParseChunk] at hstep
    simp only [bind, Option.bind_eq_some] at hstep
    obtain ⟨size2, hsize2, ty, hty, hstep⟩ := hstep
    rw [hsize, Option.some.injEq] at hsize2
    subst hsize2
    rw [asepriteChunkTypeAt] at hty2
    rw [hty2, Option.some.injEq] at hty
    subst hty
    rw [if_neg (by norm_num), if_neg (by norm_num), if_neg (by norm_num),
      if_pos rfl] at hstep
    by_cases hne : s.frame.numLayers ≠ s.file.numLayers
    · rw [if_pos (by simpa using hne)] at hstep
      simp only [Option.bind_eq_some, Option.pure_def, Option.some.injEq] at hstep
      obtain ⟨fr, hfr, rfl⟩ := hstep
      exact ⟨fun _ => ⟨fr, hfr, rfl⟩, fun heq => absurd heq hne⟩
    · rw [if_neg (by simpa using hne)] at hstep
      simp only [Option.bind_eq_some, Option.pure_def, Option.some.injEq] at hstep
      obtain ⟨fr, hfr, rfl⟩ := hstep
      refine ⟨fun hne2 => absurd hne2 hne, fun _ => ⟨fr, ?_, rfl⟩⟩
      exact hfr
  · intro inflate fr0 fr d p len idx hidx hcel
    rw [AsepriteParseCel] at hcel
    simp only [bind, Option.bind_eq_some, Option.pure_def, Option.some.injEq,
      Option.some_bind] at hcel
    obtain ⟨idx2, hidx2, x, hx, y, hy, op, hop, ct, hct, hcel⟩ := hcel
    rw [hidx, Option.some.injEq] at hidx2
    subst hidx2
    split_ifs at hcel <;>
      simp only [Option.bind_eq_some, Option.some_bind, Option.some.injEq] at hcel
    all_goals obtain ⟨w, hw, h2, hh2, rfl⟩ := hcel
    all_goals exact ⟨rfl, _, rfl⟩

/-- Concrete parser state for the C10 witness: two layers are known
globally (numLayers 2) while the frame still records 0, and the chunk at
the cursor is a raw cel chunk (type 0x2005) for layer index 1 with a
1x1 payload byte 9. -/
def asepriteC10State : aseprite_chunk_state :=
  { data := [27, 0, 0, 0, 5, 32, 1, 0, 0, 0, 0, 0, 255, 0, 0,
             0, 0, 0, 0, 0, 0, 0, 1, 0, 1, 0, 9],
    file := { palette := { numColors := 0, colors := [] },
              numLayers := 2, layerInfo := [] },
    frame := { numLayers := 0, layers := [] },
    parser := { at_ := 0, availableLayers := 2, usesNewPalette := false } }

/-- The cel slot the C10 witness chunk decodes. -/
def asepriteC10Header : aseprite_cel_header :=
  { layerIndex := 1, xPos := 0, yPos := 0, opacity := 255, celType := 0 }

/-- The decoded raw cel of the C10 witness chunk. -/
def asepriteC10Slot : aseprite_cel_slot :=
  { header := some asepriteC10Header, dataWidth := some 1, dataHeight := some 1,
    data := some (some [9]) }

/-- The state after dispatching the C10 witness cel chunk: the frame's
cel array was re-allocated to the global layer count 2 and the cel sits
at index 1. -/
def asepriteC10StateAfter : aseprite_chunk_state :=
  { data := asepriteC10State.data,
    file := asepriteC10State.file,
    frame := { numLayers := 2, layers := [asepriteEmptySlot, asepriteC10Slot] },
    parser := { at_ := 27, availableLayers := 2, usesNewPalette := false } }

/-- Witness for aseprite_c10_cel_realloc: dispatching the cel chunk of
asepriteC10State re-allocates the frame's cel array to the global count
2 (its slot 0 is a fresh uninitialized slot, dropping the previous
frame contents) and stores the decoded cel at its declared index 1. -/
theorem aseprite_c10_witness :
    AsepriteParseChunk asepriteNoInflate asepriteC10State =
      some asepriteC10StateAfter ∧
    asepriteC10StateAfter.frame.numLayers = 2 := by
  have hstep : AsepriteParseChunk asepriteNoInflate asepriteC10State =
      some asepriteC10StateAfter := by
    simp [AsepriteParseChunk, AsepriteParseCel, asepriteReadU8, asepriteReadU16,
      asepriteReadU32, asepriteReadI16, asepriteC10State, asepriteC10StateAfter,
      asepriteC10Slot, asepriteC10Header, asepriteEmptySlot, List.replicate]
  refine ⟨hstep, ?_⟩
  obtain ⟨fr, hfr, hframe⟩ :=
    ((aseprite_c10_cel_realloc.1 asepriteNoInflate asepriteC10State _ 27
      (by simp [asepriteReadU32, asepriteC10State])
      (by simp [asepriteChunkTypeAt, asepriteReadU16, asepriteC10State])
      hstep).1 (by simp [asepriteC10State]))
  have h2 := (aseprite_c10_cel_realloc.2 asepriteNoInflate
    { numLayers := asepriteC10State.file.numLayers,
      layers := List.replicate asepriteC10State.file.numLayers asepriteEmptySlot }
    fr asepriteC10State.data 6 21 1
    (by simp [asepriteReadU16, asepriteC10State]) hfr).1
  rw [hframe, h2]
  rfl
